import Mathlib

/-!
Verification of the RTE Tempo polling core: the natural-language design
document is checked against a shallow embedding of the Python sources
(`custom_components/rtetempo/api/auth.py`, `api/client.py`,
`api/exceptions.py`, `api/models.py`, `tempo_coordinator.py`).

Conventions of the embedding:
* machine floats used for monotonic clocks and sleeps are modelled as `ℚ`;
* wall-clock datetimes are modelled at one-second granularity (Python
  microseconds play no role in any checked property);
* Python exceptions become `Except` values; the distinction between the
  typed `RTETempoError` hierarchy and plain Python exceptions
  (`KeyError`, `ValueError`, `TypeError`) is kept, since the source
  catches them differently;
* `const.py` is not part of the provided sources: the handful of
  constants it defines are modelled from the specification and from the
  values pinned by the tests of the repository, and are marked as such.
-/

set_option autoImplicit false

namespace RteTempo

/-! ## Python exceptions that escape the typed error hierarchy -/

/-- Python exceptions relevant to `_parse_response` and the retry loop:
`KeyError` (caught per entry), `ValueError` (raised by `strptime` on an
unparseable string, never caught), `TypeError` (raised when a non-string
reaches slicing/`strptime`, or when `raise None` would execute). -/
inductive PyExc where
  | keyError (key : String)
  | valueError (arg : String)
  | typeError
deriving DecidableEq, Repr

/-! ## Dates and datetimes -/

/-- A calendar date, as produced by `parse_rte_api_date`
(`datetime.date(year, month, day)`). -/
structure Date where
  year : Nat
  month : Nat
  day : Nat
deriving DecidableEq, Repr

/-- An aware `datetime.datetime` at second granularity with a fixed UTC
offset in minutes, exactly the shape `strptime` with `%z` produces. -/
structure DateTime where
  year : Nat
  month : Nat
  day : Nat
  hour : Nat
  minute : Nat
  second : Nat
  offsetMinutes : Int
deriving DecidableEq, Repr

/-- Leap-year rule used by `datetime` date validation. -/
def isLeapYear (y : Nat) : Bool :=
  decide (y % 4 = 0 ∧ (y % 100 ≠ 0 ∨ y % 400 = 0))

/-- Days in a month, as validated by `datetime`. -/
def daysInMonth (y m : Nat) : Nat :=
  match m with
  | 2 => if isLeapYear y then 29 else 28
  | 4 => 30
  | 6 => 30
  | 9 => 30
  | 11 => 30
  | _ => 31

/-! ### Digit rendering and reading

`strftime`/`strptime` work on zero-padded decimal fields; we model the
digits directly so that formatting and parsing are plain functions on
`List Char`. -/

/-- The decimal digit character for `n % 10`-style values `0..9`. -/
def digitChar : Nat → Char
  | 0 => '0'
  | 1 => '1'
  | 2 => '2'
  | 3 => '3'
  | 4 => '4'
  | 5 => '5'
  | 6 => '6'
  | 7 => '7'
  | 8 => '8'
  | _ => '9'

/-- Numeric value of a decimal digit character. -/
def digitVal (c : Char) : Nat := c.toNat - 48

/-- Whether a character is a decimal digit. -/
def isDigitChar (c : Char) : Bool :=
  decide (48 ≤ c.toNat ∧ c.toNat ≤ 57)

/-- Two-digit zero-padded rendering (`%m`, `%d`, `%H`, `%M`, `%S`). -/
def pad2 (n : Nat) : List Char :=
  [digitChar (n / 10 % 10), digitChar (n % 10)]

/-- Four-digit zero-padded rendering (`%Y` for years 1000-9999). -/
def pad4 (n : Nat) : List Char :=
  [digitChar (n / 1000 % 10), digitChar (n / 100 % 10),
   digitChar (n / 10 % 10), digitChar (n % 10)]

/-- The `%z` rendering of a fixed UTC offset: sign, then `HHMM` of the
absolute offset. -/
def formatOffset (off : Int) : List Char :=
  let sign := if off < 0 then '-' else '+'
  let a := off.natAbs
  sign :: (pad2 (a / 60) ++ pad2 (a % 60))

/-- Constant `API_DATE_FORMAT` is defined in `const.py`, which is absent from the
sources. Modelled from the spec: the format is the ISO-like
`%Y-%m-%dT%H:%M:%S%z` pinned by the tests of the repository
(`"2024-01-15T00:00:00+01:00"` with the offset colon removed/added by
the client). `strftime_api d` is `d.strftime(API_DATE_FORMAT)`. -/
def strftime_api (d : DateTime) : String :=
  String.mk (pad4 d.year ++ '-' :: (pad2 d.month ++ '-' :: (pad2 d.day ++
    'T' :: (pad2 d.hour ++ ':' :: (pad2 d.minute ++ ':' :: (pad2 d.second ++
    formatOffset d.offsetMinutes))))))

/-! ### Pythonic slices

`s[:-k]` and `s[-k:]` clamp instead of failing; both appear in the
offset-colon handling of `client.py`. -/

/-- Python `s[:-k]` on the character list of a string. -/
def pySliceToNegK (k : Nat) (l : List Char) : List Char :=
  l.take (l.length - k)

/-- Python `s[-k:]` on the character list of a string. -/
def pySliceFromNegK (k : Nat) (l : List Char) : List Char :=
  l.drop (l.length - k)

/-- Python `date[:-3] + date[-2:]` removes the colon from the timezone offset
before `strptime` (`parse_rte_api_datetime`, client.py:240). -/
def strip_offset_colon (s : String) : String :=
  String.mk (pySliceToNegK 3 s.data ++ pySliceFromNegK 2 s.data)

/-- Python `s[:-2] + ":" + s[-2:]` inserts the offset colon when building the
`start_date`/`end_date` query parameters (`_async_fetch`, client.py:141). -/
def insert_offset_colon (s : String) : String :=
  String.mk (pySliceToNegK 2 s.data ++ ':' :: pySliceFromNegK 2 s.data)

/-- Models `datetime.datetime.strptime(s, API_DATE_FORMAT)` for the
fixed-width zero-padded strings the API format denotes
(`YYYY-MM-DDTHH:MM:SS±HHMM`); range validation mirrors `datetime`
construction (month 1-12, day within the month, hour ≤ 23, minute and
second ≤ 59, offset strictly within ±24 hours). Returns `none` where
Python raises `ValueError`. -/
def strptime_api (s : String) : Option DateTime :=
  match s.data with
  | [y1, y2, y3, y4, c1, mo1, mo2, c2, d1, d2, c3, h1, h2, c4,
     mi1, mi2, c5, se1, se2, sg, z1, z2, z3, z4] =>
    if c1 = '-' ∧ c2 = '-' ∧ c3 = 'T' ∧ c4 = ':' ∧ c5 = ':' ∧
        (sg = '+' ∨ sg = '-') ∧
        isDigitChar y1 = true ∧ isDigitChar y2 = true ∧
        isDigitChar y3 = true ∧ isDigitChar y4 = true ∧
        isDigitChar mo1 = true ∧ isDigitChar mo2 = true ∧
        isDigitChar d1 = true ∧ isDigitChar d2 = true ∧
        isDigitChar h1 = true ∧ isDigitChar h2 = true ∧
        isDigitChar mi1 = true ∧ isDigitChar mi2 = true ∧
        isDigitChar se1 = true ∧ isDigitChar se2 = true ∧
        isDigitChar z1 = true ∧ isDigitChar z2 = true ∧
        isDigitChar z3 = true ∧ isDigitChar z4 = true then
      let year := digitVal y1 * 1000 + digitVal y2 * 100 + digitVal y3 * 10 + digitVal y4
      let month := digitVal mo1 * 10 + digitVal mo2
      let day := digitVal d1 * 10 + digitVal d2
      let hour := digitVal h1 * 10 + digitVal h2
      let minute := digitVal mi1 * 10 + digitVal mi2
      let second := digitVal se1 * 10 + digitVal se2
      let offh := digitVal z1 * 10 + digitVal z2
      let offm := digitVal z3 * 10 + digitVal z4
      if 1 ≤ month ∧ month ≤ 12 ∧ 1 ≤ day ∧ day ≤ daysInMonth year month ∧
          hour ≤ 23 ∧ minute ≤ 59 ∧ second ≤ 59 ∧ offh ≤ 23 ∧ offm ≤ 59 then
        some { year := year, month := month, day := day, hour := hour,
               minute := minute, second := second,
               offsetMinutes := if sg = '-' then -((offh * 60 + offm : Nat) : Int)
                 else ((offh * 60 + offm : Nat) : Int) }
      else none
    else none
  | _ => none

/-- Function `parse_rte_api_datetime` (client.py:238-241): strips the offset
colon, then parses with `API_DATE_FORMAT`; an unparseable string is a
`ValueError`. -/
def parse_rte_api_datetime (s : String) : Except PyExc DateTime :=
  match strptime_api (strip_offset_colon s) with
  | some d => .ok d
  | none => .error (.valueError (strip_offset_colon s))

/-- Truncation of a parsed datetime to its date
(`parse_rte_api_date`, client.py:244-249). -/
def date_of (d : DateTime) : Date :=
  { year := d.year, month := d.month, day := d.day }

/-- Function `parse_rte_api_date` (client.py:244-249). -/
def parse_rte_api_date (s : String) : Except PyExc Date :=
  (parse_rte_api_datetime s).map date_of

/-! ## Civil-date arithmetic

`datetime` day arithmetic (`+ timedelta(days=...)`) and aware-datetime
subtraction both reduce to a days-since-epoch conversion; we use the
standard civil-from-days bijection on proleptic Gregorian dates. -/

/-- Days since 1970-01-01 of a proleptic Gregorian date. -/
def days_from_civil (y m d : Int) : Int :=
  let y1 := if m ≤ 2 then y - 1 else y
  let era := y1.fdiv 400
  let yoe := y1 - era * 400
  let mp := if m > 2 then m - 3 else m + 9
  let doy := (153 * mp + 2).fdiv 5 + d - 1
  let doe := yoe * 365 + yoe.fdiv 4 - yoe.fdiv 100 + doy
  era * 146097 + doe - 719468

/-- Inverse of `days_from_civil`: the date `(y, m, d)` of a day number. -/
def civil_from_days (z : Int) : Int × Int × Int :=
  let z1 := z + 719468
  let era := z1.fdiv 146097
  let doe := z1 - era * 146097
  let yoe := (doe - doe.fdiv 1460 + doe.fdiv 36524 - doe.fdiv 146096).fdiv 365
  let y := yoe + era * 400
  let doy := doe - (365 * yoe + yoe.fdiv 4 - yoe.fdiv 100)
  let mp := (5 * doy + 2).fdiv 153
  let d := doy - (153 * mp + 2).fdiv 5 + 1
  let m := if mp < 10 then mp + 3 else mp - 9
  (if m ≤ 2 then y + 1 else y, m, d)

/-- Constant `HOUR_OF_CHANGE` lives in the absent `const.py`; its value 6 is
pinned by the tests of the repository (`test_const.py`). -/
def HOUR_OF_CHANGE : Nat := 6

/-- Function `adjust_tempo_time` (client.py:233-235):
`date + datetime.timedelta(hours=HOUR_OF_CHANGE)`, rolling over the day
when the hour sum passes midnight. -/
def adjust_tempo_time (d : DateTime) : DateTime :=
  let total := d.hour + HOUR_OF_CHANGE
  let c := civil_from_days
    (days_from_civil d.year d.month d.day + ((total / 24 : Nat) : Int))
  { d with year := c.1.toNat, month := c.2.1.toNat, day := c.2.2.toNat,
           hour := total % 24 }

/-! ## The JSON payload and `_parse_response` -/

/-- The fragment of JSON the tempo endpoint returns: objects, arrays
and strings. -/
inductive Json where
  | obj (fields : List (String × Json))
  | arr (items : List Json)
  | str (s : String)

/-- Python `j[key]`: a missing key in a dict raises `KeyError`; indexing
a non-dict with a string key raises `TypeError`. -/
def jGet (j : Json) (key : String) : Except PyExc Json :=
  match j with
  | .obj fs =>
    match fs.lookup key with
    | some v => .ok v
    | none => .error (.keyError key)
  | _ => .error .typeError

/-- Field access followed by use as a timestamp string: a present
non-string value reaches `strptime` and raises `TypeError`. -/
def jGetStr (j : Json) (key : String) : Except PyExc String :=
  match jGet j key with
  | .ok (.str s) => .ok s
  | .ok _ => .error .typeError
  | .error e => .error e

/-- The API payload keys, defined in the absent `const.py`; the strings
are pinned by the tests of the repository (`test_client.py`). -/
def API_KEY_RESULTS : String := "tempo_like_calendars"

/-- See `API_KEY_RESULTS`. -/
def API_KEY_VALUES : String := "values"

/-- See `API_KEY_RESULTS`. -/
def API_KEY_START : String := "start_date"

/-- See `API_KEY_RESULTS`. -/
def API_KEY_END : String := "end_date"

/-- See `API_KEY_RESULTS`. -/
def API_KEY_VALUE : String := "value"

/-- See `API_KEY_RESULTS`. -/
def API_KEY_UPDATED : String := "updated_date"

/-- A `TempoDay` (models.py): `start`/`end` are datetimes in the
hour-shifted list and plain dates in the date-aligned list; the union
type of the Python dataclass is embedded as a type parameter. -/
structure TempoDay (α : Type) where
  start : α
  end_ : α
  value : Json
  updated : DateTime

/-- One iteration of the entry loop of `_parse_response`
(client.py:257-284), with the evaluation order of the source: start, end,
value, updated. The caller catches `KeyError` only. -/
def parse_entry (entry : Json) : Except PyExc (TempoDay DateTime × TempoDay Date) :=
  match jGetStr entry API_KEY_START with
  | .error e => .error e
  | .ok sRaw =>
    match parse_rte_api_datetime sRaw with
    | .error e => .error e
    | .ok sdt =>
      match jGetStr entry API_KEY_END with
      | .error e => .error e
      | .ok eRaw =>
        match parse_rte_api_datetime eRaw with
        | .error e => .error e
        | .ok edt =>
          match jGet entry API_KEY_VALUE with
          | .error e => .error e
          | .ok v =>
            match jGetStr entry API_KEY_UPDATED with
            | .error e => .error e
            | .ok uRaw =>
              match parse_rte_api_datetime uRaw with
              | .error e => .error e
              | .ok udt =>
                .ok ({ start := adjust_tempo_time sdt, end_ := adjust_tempo_time edt,
                       value := v, updated := udt },
                     { start := date_of sdt, end_ := date_of edt,
                       value := v, updated := udt })

/-- The entry loop of `_parse_response`: each entry is attempted; a
`KeyError` is caught and the entry skipped with a warning; any other
exception propagates. -/
def parse_entries :
    List Json → Except PyExc (List (TempoDay DateTime) × List (TempoDay Date))
  | [] => .ok ([], [])
  | e :: rest =>
    match parse_entry e with
    | .error (.keyError _) => parse_entries rest
    | .error exc => .error exc
    | .ok (a, r) =>
      match parse_entries rest with
      | .error exc => .error exc
      | .ok (as_, rs) => .ok (a :: as_, r :: rs)

/-- Python date comparison (`<` on `datetime.date`), field-lexicographic. -/
def dateLt (a b : Date) : Bool :=
  decide (a.year < b.year ∨ (a.year = b.year ∧
    (a.month < b.month ∨ (a.month = b.month ∧ a.day < b.day))))

/-- Models `max(regular_days, key=lambda d: d.end)` (client.py:289): Python
`max` keeps the earliest element among ties. -/
def py_max_by_end (h : TempoDay Date) (t : List (TempoDay Date)) : TempoDay Date :=
  t.foldl (fun best d => if dateLt best.end_ d.end_ then d else best) h

/-- A wall-clock datetime without timezone information, as used by the
coordinator (`FRANCE_TZ` is supplied separately as an offset function). -/
structure LocalDT where
  year : Int
  month : Int
  day : Int
  hour : Int
  minute : Int
  second : Int
deriving DecidableEq, Repr

/-- The `data_end` computation of `_parse_response` (client.py:286-295): the
`end` of the regular day with the maximum end, as a datetime at midnight
(`datetime.datetime(year, month, day, tzinfo=FRANCE_TZ)`). -/
def data_end_of (reg : List (TempoDay Date)) : Option LocalDT :=
  match reg with
  | [] => none
  | h :: t =>
    let newest := (py_max_by_end h t).end_
    some { year := (newest.year : Int), month := (newest.month : Int),
           day := (newest.day : Int), hour := 0, minute := 0, second := 0 }

/-- Dataclass `TempoData` (models.py). -/
structure TempoData where
  adjusted_days : List (TempoDay DateTime)
  regular_days : List (TempoDay Date)
  data_end : Option LocalDT

/-- Function `_parse_response` (client.py:252-301). The two top-level lookups are
outside the per-entry `try`, so their failures propagate; iterating a
non-list is collapsed to `TypeError`. -/
def parse_response (payload : Json) : Except PyExc TempoData :=
  match jGet payload API_KEY_RESULTS with
  | .error e => .error e
  | .ok cals =>
    match jGet cals API_KEY_VALUES with
    | .error e => .error e
    | .ok (.arr entries) =>
      match parse_entries entries with
      | .error e => .error e
      | .ok (adj, reg) =>
        .ok { adjusted_days := adj, regular_days := reg, data_end := data_end_of reg }
    | .ok _ => .error .typeError

/-- The payload shape the tests build:
`{"tempo_like_calendars": {"values": [...]}}`. -/
def mkPayload (entries : List Json) : Json :=
  .obj [(API_KEY_RESULTS, .obj [(API_KEY_VALUES, .arr entries)])]

/-- An entry has all four required fields
(start, end, colour value, updated timestamp). -/
def hasField (e : Json) (key : String) : Bool :=
  match jGet e key with
  | .ok _ => true
  | .error _ => false

/-- See `hasField`. -/
def hasAllFields (e : Json) : Bool :=
  hasField e API_KEY_START && hasField e API_KEY_END &&
  hasField e API_KEY_VALUE && hasField e API_KEY_UPDATED

/-- An entry whose processing raises something other than `KeyError`
(and therefore fails the whole call). -/
def entryFatal (e : Json) : Bool :=
  match parse_entry e with
  | .error (.keyError _) => false
  | .error _ => true
  | .ok _ => false

/-! ## The typed error hierarchy (exceptions.py) -/

/-- The `RTETempoError` hierarchy. Error messages are kept only where a
checked property depends on them (`connectionError`); status codes are
kept as carried by the Python classes. `genericError` is a bare
`RTETempoError` (the unexpected-status case), which no `except` clause
of the retry loop matches. -/
inductive RTEError where
  | authError
  | connectionError (msg : String)
  | clientError (status : Nat)
  | rateLimitError (retryAfter : Option ℚ)
  | serverError (status : Nat)
  | genericError (status : Nat)
deriving DecidableEq, Repr

/-- The error raised when the circuit breaker is open
(client.py:182): `RTETempoConnectionError("Circuit breaker is open")` —
the realization of the abstract `CircuitOpenError` of the spec. -/
def circuitOpenError : RTEError := .connectionError "Circuit breaker is open"

/-! ## HTTP status mapping (`_check_response_status`) -/

/-- Python `float(s)` on the plain decimal forms a `Retry-After` header
carries (optional sign, digits, optional fraction); `none` where
`float` raises `ValueError`. -/
def pyFloatCore (l : List Char) : Option ℚ :=
  let intPart := l.takeWhile isDigitChar
  let rest := l.dropWhile isDigitChar
  let natVal : List Char → Nat := fun cs => cs.foldl (fun acc c => acc * 10 + digitVal c) 0
  match rest with
  | [] => if intPart.isEmpty then none else some ((natVal intPart : ℚ))
  | '.' :: frac =>
    if frac.all isDigitChar ∧ ¬(intPart.isEmpty ∧ frac.isEmpty) then
      some ((natVal intPart : ℚ) + (natVal frac : ℚ) / ((10 : ℚ) ^ frac.length))
    else none
  | _ => none

/-- See `pyFloatCore`. -/
def pyFloatOfString (s : String) : Option ℚ :=
  match s.data with
  | '+' :: rest => pyFloatCore rest
  | '-' :: rest => (pyFloatCore rest).map (fun q => -q)
  | l => pyFloatCore l

/-- Function `_check_response_status` (client.py:205-227), with the test order of the source: 200, 429 (parsing `Retry-After` when the header is truthy), 401,
400-499, then `status >= 500`, then the generic error. Returns the
raised error, `none` on 200. -/
def check_response_status (status : Nat) (retryAfterHeader : Option String) :
    Option RTEError :=
  if status = 200 then none
  else if status = 429 then
    let rv : Option ℚ :=
      match retryAfterHeader with
      | some s => if s = "" then none else pyFloatOfString s
      | none => none
    some (.rateLimitError rv)
  else if status = 401 then some .authError
  else if 400 ≤ status ∧ status < 500 then some (.clientError status)
  else if 500 ≤ status then some (.serverError status)
  else some (.genericError status)

/-! ## Circuit breaker (client.py:44-201) -/

/-- Enum `_CircuitState` (client.py:49-52). -/
inductive CircuitState where
  | closed
  | opened
  | halfOpen
deriving DecidableEq, Repr

/-- Constant `_CB_FAILURE_THRESHOLD` (client.py:45). -/
def CB_FAILURE_THRESHOLD : Nat := 5

/-- Constant `_CB_RECOVERY_TIMEOUT` (client.py:46), seconds. -/
def CB_RECOVERY_TIMEOUT : ℚ := 300

/-- The circuit-breaker fields of `RTETempoClient`
(client.py:67-69); initial values `CLOSED`, `0`, `0.0`. -/
structure ClientState where
  cb_state : CircuitState
  cb_failure_count : Nat
  cb_last_failure : ℚ
deriving DecidableEq, Repr

/-- The initial circuit-breaker state of the client (client.py:67-69). -/
def cb_init : ClientState :=
  { cb_state := .closed, cb_failure_count := 0, cb_last_failure := 0 }

/-- Function `_check_circuit_breaker` (client.py:175-182): `mono` is
`time.monotonic()` at the check. Raises `circuitOpenError` (leaving the
state untouched) or returns the possibly half-opened state. -/
def check_circuit_breaker (st : ClientState) (mono : ℚ) : Except RTEError ClientState :=
  if st.cb_state = .opened then
    if mono - st.cb_last_failure ≥ CB_RECOVERY_TIMEOUT then
      .ok { st with cb_state := .halfOpen }
    else .error circuitOpenError
  else .ok st

/-- Function `_cb_on_success` (client.py:184-189). -/
def cb_on_success (st : ClientState) : ClientState :=
  { st with cb_state := .closed, cb_failure_count := 0 }

/-- Function `_cb_on_failure` (client.py:191-201): `mono` is `time.monotonic()`
at the failure. -/
def cb_on_failure (st : ClientState) (mono : ℚ) : ClientState :=
  let n := st.cb_failure_count + 1
  { cb_state := if CB_FAILURE_THRESHOLD ≤ n then .opened else st.cb_state,
    cb_failure_count := n,
    cb_last_failure := mono }

/-- The three events that touch the breaker state across the lifetime of a client: a failure hook, a success hook, and a pre-fetch check. -/
inductive CBOp where
  | failure (t : ℚ)
  | success
  | check (t : ℚ)

/-- One breaker event applied to the state (a failed `check` raises and
leaves the state unchanged). -/
def cb_step (st : ClientState) : CBOp → ClientState
  | .failure t => cb_on_failure st t
  | .success => cb_on_success st
  | .check t =>
    match check_circuit_breaker st t with
    | .ok st1 => st1
    | .error _ => st

/-- A sequence of breaker events. -/
def cb_run (st : ClientState) (ops : List CBOp) : ClientState :=
  ops.foldl cb_step st

/-! ## The retry loop (`async_get_tempo_data`, client.py:95-129) -/

/-- Constant `_MAX_RETRIES` (client.py:41). -/
def MAX_RETRIES : Nat := 3

/-- Constant `_BACKOFF_BASE` (client.py:42), seconds. -/
def BACKOFF_BASE : ℚ := 1

/-- The outcome of one `_async_fetch` attempt: a 200 payload, or a
raised `RTETempoError` (from the token fetch, the transport, or
`_check_response_status`). -/
inductive FetchOutcome where
  | success (payload : Json)
  | failure (e : RTEError)

/-- What a call to `async_get_tempo_data` produces. -/
inductive CallResult where
  | ok (data : TempoData)
  | rteErr (e : RTEError)
  | pyExc (e : PyExc)

/-- Errors matched by the retryable `except` clause (client.py:109). -/
def retryable : RTEError → Bool
  | .serverError _ => true
  | .rateLimitError _ => true
  | .connectionError _ => true
  | _ => false

/-- Errors matched by the non-retryable `except` clause
(client.py:124). -/
def nonRetryableCaught : RTEError → Bool
  | .authError => true
  | .clientError _ => true
  | _ => false

/-- The sleep before the next attempt (client.py:113-115):
`wait = _BACKOFF_BASE * 2**attempt`, raised to `retry_after` when the
error is a rate limit whose `retry_after` is truthy. -/
def backoff_wait (attempt : Nat) (e : RTEError) : ℚ :=
  let wait := BACKOFF_BASE * 2 ^ attempt
  match e with
  | .rateLimitError (some r) => if r = 0 then wait else max wait r
  | _ => wait

/-- The result of one `async_get_tempo_data` call: its outcome, the
final breaker state, the `asyncio.sleep` durations in order, and the
number of `_async_fetch` attempts made (each attempt is one token fetch
plus one network request). -/
structure RunResult where
  result : CallResult
  state : ClientState
  sleeps : List ℚ
  attempts : Nat

/-- The `for attempt in range(_MAX_RETRIES)` loop (client.py:103-129),
recursing on the remaining iterations. The monotonic clock is modelled
as constant (`mono`) within one call. `outs n` is the fetch outcome of
attempt `n`. The unreachable zero-iteration case models
`raise last_err` with `last_err = None`, which is a `TypeError`. -/
def attempt_loop (outs : Nat → FetchOutcome) (mono : ℚ) :
    ClientState → Nat → Nat → RunResult
  | st, _, 0 =>
    { result := .pyExc .typeError, state := st, sleeps := [], attempts := 0 }
  | st, attempt, rem + 1 =>
    match outs attempt with
    | .success payload =>
      match parse_response payload with
      | .ok d =>
        { result := .ok d, state := cb_on_success st, sleeps := [], attempts := 1 }
      | .error exc =>
        { result := .pyExc exc, state := st, sleeps := [], attempts := 1 }
    | .failure e =>
      if retryable e then
        let st1 := cb_on_failure st mono
        if rem = 0 then
          { result := .rteErr e, state := st1, sleeps := [], attempts := 1 }
        else
          let w := backoff_wait attempt e
          let r := attempt_loop outs mono st1 (attempt + 1) rem
          { result := r.result, state := r.state, sleeps := w :: r.sleeps,
            attempts := r.attempts + 1 }
      else if nonRetryableCaught e then
        { result := .rteErr e, state := cb_on_failure st mono, sleeps := [],
          attempts := 1 }
      else
        { result := .rteErr e, state := st, sleeps := [], attempts := 1 }

/-- Function `async_get_tempo_data` (client.py:95-129): the breaker check, then
the retry loop. -/
def async_get_tempo_data (outs : Nat → FetchOutcome) (mono : ℚ)
    (st : ClientState) : RunResult :=
  match check_circuit_breaker st mono with
  | .error e => { result := .rteErr e, state := st, sleeps := [], attempts := 0 }
  | .ok st1 => attempt_loop outs mono st1 0 MAX_RETRIES

/-! ## Token manager (auth.py) -/

/-- Constant `_TOKEN_EXPIRY_MARGIN` (auth.py:16), seconds. -/
def TOKEN_EXPIRY_MARGIN : ℚ := 60

/-- The token cache of `RTETempoAuth` (auth.py:32-33); initially
`None` / `0.0`. -/
structure AuthState where
  access_token : Option String
  token_expiry : ℚ
deriving DecidableEq, Repr

/-- What the token endpoint answers: a 200 JSON body (token string plus
`expires_in` seconds), a non-200 status, or a transport failure. -/
inductive TokenResponse where
  | okToken (access_token : String) (expires_in : Int)
  | httpError (status : Nat)
  | transportError

/-- Function `_async_fetch_token` (auth.py:47-86): `mono` is `time.monotonic()`
when the response is handled. On success the cache is replaced and
`token_expiry = mono + expires_in - 60`. -/
def async_fetch_token (mono : ℚ) :
    TokenResponse → Except RTEError (String × AuthState)
  | .okToken tok e =>
    .ok (tok, { access_token := some tok,
                token_expiry := mono + (e : ℚ) - TOKEN_EXPIRY_MARGIN })
  | .httpError _ => .error .authError
  | .transportError => .error (.connectionError "Connection error during token request")

/-- The slow path of `async_get_access_token`: the network fetch,
counting one token-endpoint call; the cache is untouched on error. -/
def token_slow_path (st : AuthState) (mono : ℚ) (resp : TokenResponse) :
    Except RTEError String × AuthState × Nat :=
  match async_fetch_token mono resp with
  | .ok (tok, st1) => (.ok tok, st1, 1)
  | .error e => (.error e, st, 1)

/-- Function `async_get_access_token` (auth.py:36-45), sequentially (the double-check under the lock collapses to the single validity test): the cached token is
served while it is truthy and `mono < token_expiry`; otherwise one fetch
is performed. The third component counts token-endpoint calls. -/
def async_get_access_token (st : AuthState) (mono : ℚ) (resp : TokenResponse) :
    Except RTEError String × AuthState × Nat :=
  match st.access_token with
  | some tok =>
    if tok ≠ "" ∧ mono < st.token_expiry then (.ok tok, st, 0)
    else token_slow_path st mono resp
  | none => token_slow_path st mono resp

/-! ## The polling scheduler (`compute_wait_time`, tempo_coordinator.py)

Aware datetimes in `FRANCE_TZ` are modelled as a wall-clock `LocalDT`
together with an offset function `tz : LocalDT → Int` (the
`utcoffset()` of a wall time, in seconds); subtraction and comparison of
aware datetimes go through `to_instant`. The random draw
`random.randrange(a, b)` is a parameter `rand`. -/

/-- A timezone as `utcoffset()` in seconds of a wall-clock time. -/
abbrev TZ := LocalDT → Int

/-- Seconds-since-epoch instant of an aware datetime. -/
def to_instant (tz : TZ) (dt : LocalDT) : Int :=
  days_from_civil dt.year dt.month dt.day * 86400 +
    dt.hour * 3600 + dt.minute * 60 + dt.second - tz dt

/-- Python `datetime.combine(now.date(), time(tzinfo=FRANCE_TZ))`
(tempo_coordinator.py:70-72): midnight of the same wall-clock date. -/
def midnight_of (dt : LocalDT) : LocalDT :=
  { dt with hour := 0, minute := 0, second := 0 }

/-- Python `now + datetime.timedelta(days=n)`: naive field arithmetic on the
wall clock (the tzinfo is carried along unchanged). -/
def add_days (dt : LocalDT) (n : Int) : LocalDT :=
  let c := civil_from_days (days_from_civil dt.year dt.month dt.day + n)
  { dt with year := c.1, month := c.2.1, day := c.2.2 }

/-- Constants `CONFIRM_HOUR`/`CONFIRM_MIN` live in the absent `const.py`.
Modelled from the spec: the daily confirmation checkpoint is a fixed
hour:minute constant, e.g. 10:30. -/
def CONFIRM_HOUR : Int := 10

/-- See `CONFIRM_HOUR`. -/
def CONFIRM_MIN : Int := 30

/-- Constant `CONFIRM_CHECK` lives in the absent `const.py`. Modelled from the
spec: the second fixed confirmation-check hour constant. -/
def CONFIRM_CHECK : Int := 11

/-- The `ref_confirmation` datetime (tempo_coordinator.py:83-90): today at
`CONFIRM_HOUR:CONFIRM_MIN`. -/
def ref_confirmation (now : LocalDT) : LocalDT :=
  { year := now.year, month := now.month, day := now.day,
    hour := CONFIRM_HOUR, minute := CONFIRM_MIN, second := 0 }

/-- The `next_call` of the past-confirmation branch
(tempo_coordinator.py:93-100): tomorrow at the change hour. -/
def next_call_change (now : LocalDT) : LocalDT :=
  let t := add_days now 1
  { year := t.year, month := t.month, day := t.day,
    hour := (HOUR_OF_CHANGE : Int), minute := 0, second := 0 }

/-- The `next_call` of the before-confirmation branch
(tempo_coordinator.py:112-119): tomorrow at the confirmation-check
hour. -/
def next_call_confirm (now : LocalDT) : LocalDT :=
  let t := add_days now 1
  { year := t.year, month := t.month, day := t.day,
    hour := CONFIRM_CHECK, minute := 0, second := 0 }

/-- The `next_call` of the before-change-hour branch
(tempo_coordinator.py:135-142): today at the change hour plus one
second. -/
def next_call_today_change (now : LocalDT) : LocalDT :=
  { year := now.year, month := now.month, day := now.day,
    hour := (HOUR_OF_CHANGE : Int), minute := 0, second := 1 }

/-- Function `compute_wait_time` (tempo_coordinator.py:59-182), returning the
wait in whole seconds (the model works at second granularity, so
`int(wait_time.total_seconds())` is exact). `rand a b` models
`random.randrange(a, b)`. -/
def compute_wait_time (tz : TZ) (rand : Int → Int → Int)
    (now : LocalDT) (data_end : Option LocalDT) : Int :=
  match data_end with
  | none => 600
  | some de =>
    let today := midnight_of now
    let diff := to_instant tz de - to_instant tz today
    let diffDays := diff.fdiv 86400
    if diffDays = 2 then
      if to_instant tz now > to_instant tz (ref_confirmation now) then
        let w := to_instant tz (next_call_change now) - to_instant tz now
        rand w (w + 900)
      else
        let w := to_instant tz (next_call_confirm now) - to_instant tz now
        rand (w - 900) (w + 900)
    else if diffDays = 1 then
      if now.hour < 6 then
        let w := to_instant tz (next_call_today_change now) - to_instant tz now
        rand w (w + 900)
      else
        rand (((1800 : Int) * 5).fdiv 6) (((1800 : Int) * 7).fdiv 6)
    else
      rand (((3600 : Int) * 5).fdiv 6) (((3600 : Int) * 7).fdiv 6)

/-! # Checked properties -/

/-! ## C1: the branch/jitter structure of the scheduler -/

/-- C1: for every datetime `now`, every horizon and every jitter draw
(`rand` ranging anywhere in `[a, b)` as `randrange` does):
a null horizon gives exactly 10 minutes with no jitter; with
`diff = horizon - midnight-of-now`, `diff` of 2 days past the
confirmation checkpoint gives `[base, base+900)` with
`base = tomorrow-at-change-hour - now`; 2 days before the checkpoint
gives `[base-900, base+900)` with `base = tomorrow-at-check-hour - now`;
1 day with the hour before the change hour gives `[base, base+900)` with
`base = today-at-change-hour-plus-1s - now`; 1 day otherwise gives
`[5/6, 7/6)` of 30 minutes; any other diff gives `[5/6, 7/6)` of
1 hour. -/
theorem compute_wait_time_spec (tz : TZ) (rand : Int → Int → Int) (now : LocalDT)
    (JR : ∀ a b : Int, a < b → a ≤ rand a b ∧ rand a b < b) :
    compute_wait_time tz rand now none = 600 ∧
    (∀ de : LocalDT,
      ((to_instant tz de - to_instant tz (midnight_of now)).fdiv 86400 = 2 →
        to_instant tz now > to_instant tz (ref_confirmation now) →
        to_instant tz (next_call_change now) - to_instant tz now ≤
            compute_wait_time tz rand now (some de) ∧
          compute_wait_time tz rand now (some de) <
            to_instant tz (next_call_change now) - to_instant tz now + 900) ∧
      ((to_instant tz de - to_instant tz (midnight_of now)).fdiv 86400 = 2 →
        ¬ to_instant tz now > to_instant tz (ref_confirmation now) →
        to_instant tz (next_call_confirm now) - to_instant tz now - 900 ≤
            compute_wait_time tz rand now (some de) ∧
          compute_wait_time tz rand now (some de) <
            to_instant tz (next_call_confirm now) - to_instant tz now + 900) ∧
      ((to_instant tz de - to_instant tz (midnight_of now)).fdiv 86400 = 1 →
        now.hour < 6 →
        to_instant tz (next_call_today_change now) - to_instant tz now ≤
            compute_wait_time tz rand now (some de) ∧
          compute_wait_time tz rand now (some de) <
            to_instant tz (next_call_today_change now) - to_instant tz now + 900) ∧
      ((to_instant tz de - to_instant tz (midnight_of now)).fdiv 86400 = 1 →
        ¬ now.hour < 6 →
        1500 ≤ compute_wait_time tz rand now (some de) ∧
          compute_wait_time tz rand now (some de) < 2100) ∧
      ((to_instant tz de - to_instant tz (midnight_of now)).fdiv 86400 ≠ 2 →
        (to_instant tz de - to_instant tz (midnight_of now)).fdiv 86400 ≠ 1 →
        3000 ≤ compute_wait_time tz rand now (some de) ∧
          compute_wait_time tz rand now (some de) < 4200)) := by
  constructor
  · rfl
  intro de
  refine ⟨?_, ?_, ?_, ?_, ?_⟩
  · intro hdiff hpast
    have hcw : compute_wait_time tz rand now (some de) =
        rand (to_instant tz (next_call_change now) - to_instant tz now)
          (to_instant tz (next_call_change now) - to_instant tz now + 900) := by
      unfold compute_wait_time
      dsimp only
      rw [if_pos hdiff, if_pos hpast]
    rw [hcw]
    exact JR _ _ (by omega)
  · intro hdiff hpast
    have hcw : compute_wait_time tz rand now (some de) =
        rand (to_instant tz (next_call_confirm now) - to_instant tz now - 900)
          (to_instant tz (next_call_confirm now) - to_instant tz now + 900) := by
      unfold compute_wait_time
      dsimp only
      rw [if_pos hdiff, if_neg hpast]
    rw [hcw]
    have h := JR (to_instant tz (next_call_confirm now) - to_instant tz now - 900)
      (to_instant tz (next_call_confirm now) - to_instant tz now + 900) (by omega)
    exact h
  · intro hdiff hhour
    have hcw : compute_wait_time tz rand now (some de) =
        rand (to_instant tz (next_call_today_change now) - to_instant tz now)
          (to_instant tz (next_call_today_change now) - to_instant tz now + 900) := by
      unfold compute_wait_time
      dsimp only
      rw [if_neg (by omega), if_pos hdiff, if_pos hhour]
    rw [hcw]
    exact JR _ _ (by omega)
  · intro hdiff hhour
    have hcw : compute_wait_time tz rand now (some de) =
        rand (((1800 : Int) * 5).fdiv 6) (((1800 : Int) * 7).fdiv 6) := by
      unfold compute_wait_time
      dsimp only
      rw [if_neg (by omega), if_pos hdiff, if_neg hhour]
    have e1 : ((1800 : Int) * 5).fdiv 6 = 1500 := by decide
    have e2 : ((1800 : Int) * 7).fdiv 6 = 2100 := by decide
    rw [hcw, e1, e2]
    exact JR 1500 2100 (by omega)
  · intro hd2 hd1
    have hcw : compute_wait_time tz rand now (some de) =
        rand (((3600 : Int) * 5).fdiv 6) (((3600 : Int) * 7).fdiv 6) := by
      unfold compute_wait_time
      dsimp only
      rw [if_neg hd2, if_neg hd1]
    have e1 : ((3600 : Int) * 5).fdiv 6 = 3000 := by decide
    have e2 : ((3600 : Int) * 7).fdiv 6 = 4200 := by decide
    rw [hcw, e1, e2]
    exact JR 3000 4200 (by omega)

/-- The concrete `now` used by the C1 witness: 2024-01-15 11:00. -/
def c1Now : LocalDT := ⟨2024, 1, 15, 11, 0, 0⟩

/-- The concrete horizon used by the C1 witness: 2024-01-17 00:00. -/
def c1End : LocalDT := ⟨2024, 1, 17, 0, 0, 0⟩

/-- C1 witness: a concrete run of a hypothesis-bearing branch, with the
fixed timezone offset 0 and the lowest jitter draw; the past-checkpoint
base on 2024-01-15 11:00 against a 2024-01-17 horizon is 68400 seconds. -/
theorem compute_wait_time_spec_witness :
    compute_wait_time (fun _ => 0) (fun a _ => a) c1Now none = 600 ∧
    68400 ≤ compute_wait_time (fun _ => 0) (fun a _ => a) c1Now (some c1End) := by
  have h := compute_wait_time_spec (fun _ => 0) (fun a _ => a) c1Now
    (fun a b hab => ⟨le_refl a, hab⟩)
  refine ⟨h.1, ?_⟩
  have h2 := (h.2 c1End).1 (by decide) (by decide)
  have e : to_instant (fun _ => 0) (next_call_change c1Now) -
      to_instant (fun _ => 0) c1Now = 68400 := by decide
  omega

/-! ## C2: the open-circuit gate -/

/-- Every branch of `attempt_loop` with at least one remaining iteration
performs at least one fetch attempt. -/
theorem attempt_loop_attempts_pos (outs : Nat → FetchOutcome) (mono : ℚ)
    (st : ClientState) (attempt rem : Nat) :
    1 ≤ (attempt_loop outs mono st attempt (rem + 1)).attempts := by
  unfold attempt_loop
  cases houts : outs attempt with
  | success p =>
    cases hp : parse_response p <;> simp [hp]
  | failure e =>
    by_cases hr : retryable e <;> by_cases hn : rem = 0 <;>
      by_cases hc : nonRetryableCaught e <;> simp [hr, hn, hc]

/-- C2: with the breaker open, a call within 300 seconds of the last
failure raises exactly the circuit-open error with zero fetch attempts
(hence no token fetch and no network request) and the breaker state
unchanged; at or past 300 seconds the call runs the retry loop from the
half-opened state and performs at least one fetch attempt. -/
theorem circuit_open_gate_spec (outs : Nat → FetchOutcome) (mono : ℚ)
    (st : ClientState) (hopen : st.cb_state = .opened) :
    (mono - st.cb_last_failure < 300 →
      async_get_tempo_data outs mono st =
        { result := .rteErr circuitOpenError, state := st, sleeps := [],
          attempts := 0 }) ∧
    (300 ≤ mono - st.cb_last_failure →
      async_get_tempo_data outs mono st =
        attempt_loop outs mono { st with cb_state := .halfOpen } 0 MAX_RETRIES ∧
      1 ≤ (async_get_tempo_data outs mono st).attempts) := by
  constructor
  · intro hlt
    have hcb : check_circuit_breaker st mono = .error circuitOpenError := by
      unfold check_circuit_breaker
      rw [if_pos hopen, if_neg (by unfold CB_RECOVERY_TIMEOUT; exact not_le.mpr hlt)]
    unfold async_get_tempo_data
    rw [hcb]
  · intro hge
    have hcb : check_circuit_breaker st mono =
        .ok { st with cb_state := .halfOpen } := by
      unfold check_circuit_breaker
      rw [if_pos hopen, if_pos (by unfold CB_RECOVERY_TIMEOUT; exact hge)]
    have heq : async_get_tempo_data outs mono st =
        attempt_loop outs mono { st with cb_state := .halfOpen } 0 MAX_RETRIES := by
      unfold async_get_tempo_data
      rw [hcb]
    refine ⟨heq, ?_⟩
    rw [heq]
    exact attempt_loop_attempts_pos outs mono _ 0 2

/-- C2 witness: a breaker opened at monotonic time 1000, probed at 1100
(rejected with no attempt) and at 1400 (half-opened, one attempt made). -/
theorem circuit_open_gate_spec_witness :
    async_get_tempo_data (fun _ => .failure (.serverError 500)) 1100
        { cb_state := .opened, cb_failure_count := 5, cb_last_failure := 1000 } =
      { result := .rteErr circuitOpenError,
        state := { cb_state := .opened, cb_failure_count := 5,
                   cb_last_failure := 1000 },
        sleeps := [], attempts := 0 } ∧
    1 ≤ (async_get_tempo_data (fun _ => .failure (.serverError 500)) 1400
        { cb_state := .opened, cb_failure_count := 5,
          cb_last_failure := 1000 }).attempts := by
  constructor
  · exact (circuit_open_gate_spec (fun _ => .failure (.serverError 500)) 1100
      { cb_state := .opened, cb_failure_count := 5, cb_last_failure := 1000 }
      rfl).1 (by norm_num)
  · exact ((circuit_open_gate_spec (fun _ => .failure (.serverError 500)) 1400
      { cb_state := .opened, cb_failure_count := 5, cb_last_failure := 1000 }
      rfl).2 (by norm_num)).2

/-! ## C4: the breaker transition contract -/

/-- The failure hook increments the count by one
(`_cb_on_failure`). -/
theorem cb_on_failure_count (st : ClientState) (t : ℚ) :
    (cb_on_failure st t).cb_failure_count = st.cb_failure_count + 1 := rfl

/-- The failure hook opens the breaker once the incremented count
reaches the threshold. -/
theorem cb_on_failure_opens (st : ClientState) (t : ℚ)
    (h5 : 5 ≤ st.cb_failure_count + 1) :
    (cb_on_failure st t).cb_state = .opened := by
  show (if CB_FAILURE_THRESHOLD ≤ st.cb_failure_count + 1 then CircuitState.opened
    else st.cb_state) = .opened
  rw [if_pos (show CB_FAILURE_THRESHOLD ≤ st.cb_failure_count + 1 by
    unfold CB_FAILURE_THRESHOLD; omega)]

/-- Below the threshold the failure hook leaves the state unchanged. -/
theorem cb_on_failure_state_lt (st : ClientState) (t : ℚ)
    (h5 : ¬ 5 ≤ st.cb_failure_count + 1) :
    (cb_on_failure st t).cb_state = st.cb_state := by
  show (if CB_FAILURE_THRESHOLD ≤ st.cb_failure_count + 1 then CircuitState.opened
    else st.cb_state) = st.cb_state
  rw [if_neg (show ¬ CB_FAILURE_THRESHOLD ≤ st.cb_failure_count + 1 by
    unfold CB_FAILURE_THRESHOLD; omega)]

/-- The breaker invariant: in states `opened` and `halfOpen` the
consecutive-failure count is at least the threshold. -/
def CBInv (st : ClientState) : Prop :=
  (st.cb_state = .opened ∨ st.cb_state = .halfOpen) → 5 ≤ st.cb_failure_count

/-- Invariant `CBInv` is preserved by every breaker event. -/
theorem cb_step_inv (st : ClientState) (op : CBOp) (hst : CBInv st) :
    CBInv (cb_step st op) := by
  cases op with
  | failure t =>
    intro h
    show 5 ≤ (cb_on_failure st t).cb_failure_count
    rw [cb_on_failure_count]
    by_cases h5 : 5 ≤ st.cb_failure_count + 1
    · omega
    · have hstate : (cb_on_failure st t).cb_state = st.cb_state :=
        cb_on_failure_state_lt st t h5
      have hh : (cb_step st (CBOp.failure t)).cb_state =
          (cb_on_failure st t).cb_state := rfl
      rw [hh, hstate] at h
      have := hst h
      omega
  | success =>
    intro h
    have hc : (cb_step st .success).cb_state = .closed := rfl
    rw [hc] at h
    cases h <;> simp_all
  | check t =>
    intro h
    have hcount : (cb_step st (.check t)).cb_failure_count = st.cb_failure_count := by
      unfold cb_step check_circuit_breaker
      by_cases ho : st.cb_state = .opened <;>
        by_cases hr : t - st.cb_last_failure ≥ CB_RECOVERY_TIMEOUT <;>
          simp [ho, hr]
    rw [hcount]
    apply hst
    by_cases ho : st.cb_state = .opened
    · exact Or.inl ho
    · have hid : cb_step st (.check t) = st := by
        unfold cb_step check_circuit_breaker
        simp [ho]
      rw [hid] at h
      exact h

/-- Invariant `CBInv` holds along every run from a `CBInv` state. -/
theorem cb_run_inv (ops : List CBOp) : ∀ st : ClientState, CBInv st →
    CBInv (cb_run st ops) := by
  induction ops with
  | nil => intro st h; exact h
  | cons op rest ih =>
    intro st h
    exact ih (cb_step st op) (cb_step_inv st op h)

/-- Any nonempty run of failure events whose length pushes the count to
the threshold ends in the `opened` state. -/
theorem cb_failures_open : ∀ (ts : List ℚ) (st : ClientState), ts ≠ [] →
    5 ≤ st.cb_failure_count + ts.length →
    (cb_run st (ts.map CBOp.failure)).cb_state = .opened := by
  intro ts
  induction ts with
  | nil => intro st h _; exact absurd rfl h
  | cons t rest ih =>
    intro st _ hlen
    cases rest with
    | nil =>
      show (cb_on_failure st t).cb_state = .opened
      exact cb_on_failure_opens st t (by simp only [List.length] at hlen; omega)
    | cons t2 rest2 =>
      have hstep : cb_run st ((t :: t2 :: rest2).map CBOp.failure) =
          cb_run (cb_on_failure st t) ((t2 :: rest2).map CBOp.failure) := rfl
      rw [hstep]
      apply ih (cb_on_failure st t) (by simp)
      rw [cb_on_failure_count]
      simp only [List.length] at hlen ⊢
      omega

/-- C4: the breaker transition contract. Each failure outcome increments
`consecutiveFailures`, records the failure time, and opens the breaker
once the count reaches 5; each success resets the count to 0 and closes
the breaker from any state; along every event sequence from the initial
state, `Open`/`HalfOpen` imply a count of at least 5 — so one failed
probe in `HalfOpen` goes straight back to `Open` — and any 6 consecutive
failures from any state leave the breaker `Open`. -/
theorem circuit_breaker_transition_spec :
    (∀ (st : ClientState) (t : ℚ),
      (cb_on_failure st t).cb_failure_count = st.cb_failure_count + 1 ∧
      (cb_on_failure st t).cb_last_failure = t ∧
      (5 ≤ st.cb_failure_count + 1 → (cb_on_failure st t).cb_state = .opened)) ∧
    (∀ st : ClientState, cb_on_success st =
      { cb_state := .closed, cb_failure_count := 0,
        cb_last_failure := st.cb_last_failure }) ∧
    (∀ ops : List CBOp,
      ((cb_run cb_init ops).cb_state = .opened ∨
        (cb_run cb_init ops).cb_state = .halfOpen) →
      5 ≤ (cb_run cb_init ops).cb_failure_count) ∧
    (∀ (ops : List CBOp) (t : ℚ), (cb_run cb_init ops).cb_state = .halfOpen →
      (cb_on_failure (cb_run cb_init ops) t).cb_state = .opened) ∧
    (∀ (st : ClientState) (ts : List ℚ), ts.length = 6 →
      (cb_run st (ts.map CBOp.failure)).cb_state = .opened) := by
  have hinit : CBInv cb_init := by
    intro h0
    cases h0 <;> simp_all [cb_init]
  refine ⟨?_, ?_, ?_, ?_, ?_⟩
  · intro st t
    exact ⟨rfl, rfl, cb_on_failure_opens st t⟩
  · intro st
    rfl
  · intro ops h
    exact cb_run_inv ops cb_init hinit h
  · intro ops t hhalf
    have hcount : 5 ≤ (cb_run cb_init ops).cb_failure_count :=
      cb_run_inv ops cb_init hinit (Or.inr hhalf)
    exact cb_on_failure_opens _ t (by omega)
  · intro st ts hlen
    exact cb_failures_open ts st (by intro h0; rw [h0] at hlen; simp at hlen)
      (by omega)

/-- C4 witness: six failures from the fresh client state open the
breaker, and a failure on top of a half-open state (reached by five
failures and a probe after the recovery timeout) re-opens it. -/
theorem circuit_breaker_transition_spec_witness :
    (cb_run cb_init (([1, 2, 3, 4, 5, 6] : List ℚ).map CBOp.failure)).cb_state =
      .opened ∧
    (cb_on_failure (cb_run cb_init
      (([1, 2, 3, 4, 5] : List ℚ).map CBOp.failure ++ [CBOp.check 400])) 401
      ).cb_state = .opened := by
  have hhalf : (cb_run cb_init
      (([1, 2, 3, 4, 5] : List ℚ).map CBOp.failure ++ [CBOp.check 400])
      ).cb_state = .halfOpen := by
    have h1 : cb_run cb_init (([1, 2, 3, 4, 5] : List ℚ).map CBOp.failure) =
        { cb_state := .opened, cb_failure_count := 5, cb_last_failure := 5 } := rfl
    have happ : cb_run cb_init
        (([1, 2, 3, 4, 5] : List ℚ).map CBOp.failure ++ [CBOp.check 400]) =
        cb_step (cb_run cb_init (([1, 2, 3, 4, 5] : List ℚ).map CBOp.failure))
          (CBOp.check 400) := by
      unfold cb_run
      rw [List.foldl_append]
      rfl
    rw [happ, h1]
    have hc : check_circuit_breaker
        { cb_state := CircuitState.opened, cb_failure_count := 5,
          cb_last_failure := 5 } 400 =
        .ok { cb_state := .halfOpen, cb_failure_count := 5,
              cb_last_failure := 5 } := by
      unfold check_circuit_breaker
      rw [if_pos rfl, if_pos (by norm_num [CB_RECOVERY_TIMEOUT])]
    unfold cb_step
    dsimp only
    rw [hc]
  exact ⟨circuit_breaker_transition_spec.2.2.2.2 cb_init [1, 2, 3, 4, 5, 6] rfl,
    circuit_breaker_transition_spec.2.2.2.1 _ 401 hhalf⟩

/-! ## C5: the status-to-error mapping -/

/-- Python `float("")` raises, so an empty header yields no `retryAfter`. -/
theorem pyFloatOfString_empty : pyFloatOfString "" = none := rfl

/-- C5 (amended): the exact status mapping of
`_check_response_status` — 200 success; 401 `AuthError`; 429
`RateLimitError` carrying the parsed `Retry-After` header when present
and parseable, else null; any other 400-499 `ClientError(status)`;
**500 and above** `ServerError(status)`; the generic error only for the
remaining statuses below 400. -/
theorem check_response_status_spec (status : Nat) (hdr : Option String) :
    (status = 200 → check_response_status status hdr = none) ∧
    (status = 401 → check_response_status status hdr = some .authError) ∧
    (status = 429 → check_response_status status hdr =
      some (.rateLimitError (hdr.bind pyFloatOfString))) ∧
    (400 ≤ status → status < 500 → status ≠ 401 → status ≠ 429 →
      check_response_status status hdr = some (.clientError status)) ∧
    (500 ≤ status → check_response_status status hdr =
      some (.serverError status)) ∧
    (status < 400 → status ≠ 200 → check_response_status status hdr =
      some (.genericError status)) := by
  refine ⟨?_, ?_, ?_, ?_, ?_, ?_⟩
  · intro h
    subst h
    rfl
  · intro h
    subst h
    rfl
  · intro h
    subst h
    unfold check_response_status
    rw [if_neg (by omega), if_pos rfl]
    cases hdr with
    | none => rfl
    | some sv =>
      dsimp only
      by_cases he : sv = ""
      · subst he
        rw [if_pos rfl]
        rfl
      · rw [if_neg he]
        rfl
  · intro h4 h5 h401 h429
    unfold check_response_status
    rw [if_neg (by omega), if_neg (by omega), if_neg (by omega),
      if_pos (⟨h4, h5⟩ : 400 ≤ status ∧ status < 500)]
  · intro h5
    unfold check_response_status
    rw [if_neg (by omega), if_neg (by omega), if_neg (by omega),
      if_neg (by omega), if_pos h5]
  · intro h4 h200
    unfold check_response_status
    rw [if_neg h200, if_neg (by omega), if_neg (by omega),
      if_neg (by omega), if_neg (by omega)]

/-- C5 counterexample: status 600 is outside 500-599, so the claim's
table demands the generic error there, but the source's
`if status >= 500` branch raises `ServerError(600)`. -/
theorem check_response_status_counterexample :
    check_response_status 600 none = some (RTEError.serverError 600) ∧
    some (RTEError.serverError 600) ≠ some (RTEError.genericError 600) := by
  refine ⟨rfl, by decide⟩

/-- C5 witness: the amended mapping applied at 200, 429 with a numeric
header, and 600. -/
theorem check_response_status_spec_witness :
    check_response_status 200 none = none ∧
    check_response_status 429 (some "10") =
      some (.rateLimitError ((some "10").bind pyFloatOfString)) ∧
    check_response_status 600 none = some (.serverError 600) := by
  exact ⟨(check_response_status_spec 200 none).1 rfl,
    (check_response_status_spec 429 (some "10")).2.2.1 rfl,
    (check_response_status_spec 600 none).2.2.2.2.1 (by omega)⟩

/-! ## C6: the token cache -/

/-- C6: the cached token is served exactly while
`monotonicNow < expiresAtMonotonic` — a call with an unexpired cached
token returns it with zero token-endpoint calls and the cache untouched;
a call after expiry performs exactly one fetch, and a successful one
installs `expiresAt = fetchTime + expiresIn - 60`; consequently a second
call before that new expiry returns the same token with zero further
calls. -/
theorem token_cache_spec :
    (∀ (st : AuthState) (mono : ℚ) (resp : TokenResponse) (tok : String),
      st.access_token = some tok → tok ≠ "" → mono < st.token_expiry →
      async_get_access_token st mono resp = (.ok tok, st, 0)) ∧
    (∀ (st : AuthState) (mono : ℚ) (tok0 tok : String) (e : Int),
      st.access_token = some tok0 → st.token_expiry ≤ mono →
      async_get_access_token st mono (.okToken tok e) =
        (.ok tok, { access_token := some tok,
                    token_expiry := mono + (e : ℚ) - 60 }, 1)) ∧
    (∀ (t1 t2 : ℚ) (tok : String) (e : Int) (resp2 : TokenResponse),
      tok ≠ "" → t2 < t1 + (e : ℚ) - 60 →
      async_get_access_token
          { access_token := some tok, token_expiry := t1 + (e : ℚ) - 60 }
          t2 resp2 =
        (.ok tok, { access_token := some tok,
                    token_expiry := t1 + (e : ℚ) - 60 }, 0)) ∧
    (∀ (st : AuthState) (mono : ℚ) (resp : TokenResponse),
      (st.access_token = none ∨ st.token_expiry ≤ mono) →
      (async_get_access_token st mono resp).2.2 = 1) := by
  have hfast : ∀ (st : AuthState) (mono : ℚ) (resp : TokenResponse) (tok : String),
      st.access_token = some tok → tok ≠ "" → mono < st.token_expiry →
      async_get_access_token st mono resp = (.ok tok, st, 0) := by
    intro st mono resp tok htok hne hlt
    unfold async_get_access_token
    rw [htok]
    dsimp only
    rw [if_pos (⟨hne, hlt⟩ : tok ≠ "" ∧ mono < st.token_expiry)]
  have hslow : ∀ (st : AuthState) (mono : ℚ) (resp : TokenResponse),
      (token_slow_path st mono resp).2.2 = 1 := by
    intro st mono resp
    unfold token_slow_path
    cases resp <;> rfl
  refine ⟨hfast, ?_, ?_, ?_⟩
  · intro st mono tok0 tok e htok hexp
    unfold async_get_access_token
    rw [htok]
    dsimp only
    rw [if_neg (fun hcon => absurd hcon.2 (not_lt.mpr hexp))]
    unfold token_slow_path async_fetch_token TOKEN_EXPIRY_MARGIN
    rfl
  · intro t1 t2 tok e resp2 hne hlt
    exact hfast { access_token := some tok, token_expiry := t1 + (e : ℚ) - 60 }
      t2 resp2 tok rfl hne hlt
  · intro st mono resp hcase
    unfold async_get_access_token
    cases htok : st.access_token with
    | none => exact hslow st mono resp
    | some tok =>
      rcases hcase with hnone | hexp
      · rw [htok] at hnone
        exact absurd hnone (by simp)
      · dsimp only
        rw [if_neg (fun hcon => absurd hcon.2 (not_lt.mpr hexp))]
        exact hslow st mono resp

/-- C6 witness: a token cached until 100 served at 50 with zero fetches,
then refetched at 150 with exactly one fetch installing expiry
`150 + 3600 - 60`. -/
theorem token_cache_spec_witness :
    async_get_access_token { access_token := some "tok", token_expiry := 100 } 50
        .transportError =
      (.ok "tok", { access_token := some "tok", token_expiry := 100 }, 0) ∧
    async_get_access_token { access_token := some "tok", token_expiry := 100 } 150
        (.okToken "tok2" 3600) =
      (.ok "tok2",
        { access_token := some "tok2", token_expiry := (150 : ℚ) + ((3600 : Int) : ℚ) - 60 },
        1) := by
  constructor
  · exact token_cache_spec.1 { access_token := some "tok", token_expiry := 100 }
      50 .transportError "tok" rfl (by decide) (by norm_num)
  · exact token_cache_spec.2.1 { access_token := some "tok", token_expiry := 100 }
      150 "tok" "tok2" 3600 rfl (by norm_num)

/-! ## C3: the retry policy -/

/-- The loop never makes more attempts than it has iterations left. -/
theorem attempt_loop_attempts_le (outs : Nat → FetchOutcome) (mono : ℚ) :
    ∀ (rem : Nat) (st : ClientState) (attempt : Nat),
    (attempt_loop outs mono st attempt rem).attempts ≤ rem := by
  intro rem
  induction rem with
  | zero =>
    intro st attempt
    exact Nat.le_refl 0
  | succ n ih =>
    intro st attempt
    unfold attempt_loop
    cases houts : outs attempt with
    | success p =>
      cases hp : parse_response p <;> simp [hp]
    | failure e =>
      by_cases hr : retryable e <;> by_cases hn : n = 0 <;>
        by_cases hc : nonRetryableCaught e <;> simp [hr, hn, hc] <;>
          have := ih (cb_on_failure st mono) (attempt + 1) <;> omega

/-- A non-retryable caught error is not retryable. -/
theorem nonRetryableCaught_not_retryable (e : RTEError)
    (h : nonRetryableCaught e = true) : retryable e = false := by
  cases e <;> simp_all [retryable, nonRetryableCaught]

/-- With a closed breaker the call is exactly the loop from the same
state. -/
theorem async_closed (outs : Nat → FetchOutcome) (mono : ℚ) (st : ClientState)
    (hst : st.cb_state = .closed) :
    async_get_tempo_data outs mono st = attempt_loop outs mono st 0 MAX_RETRIES := by
  unfold async_get_tempo_data check_circuit_breaker
  rw [if_neg (by rw [hst]; exact fun hcon => CircuitState.noConfusion hcon)]

/-- C3: at most 3 attempts are ever made; an `AuthError`/`ClientError`
propagates on first occurrence with no sleep and no further attempt
(shown on attempt 0, and on attempt 1 after one retryable failure); two retryable failures followed by a parsed 200 succeed
with exactly the sleeps `[backoff 0 e0, backoff 1 e1]` and 3 attempts;
three retryable failures re-raise the last error with the same two
sleeps and 3 attempts; and the backoff of attempt `i` is
`max(2^i, retryAfter)` for a rate limit carrying a `retryAfter`, else
`2^i`. -/
theorem retry_policy_spec :
    (∀ (outs : Nat → FetchOutcome) (mono : ℚ) (st : ClientState),
      (async_get_tempo_data outs mono st).attempts ≤ 3) ∧
    (∀ (outs : Nat → FetchOutcome) (mono : ℚ) (st : ClientState) (e : RTEError),
      st.cb_state = .closed → outs 0 = .failure e → nonRetryableCaught e = true →
      async_get_tempo_data outs mono st =
        { result := .rteErr e, state := cb_on_failure st mono, sleeps := [],
          attempts := 1 }) ∧
    (∀ (outs : Nat → FetchOutcome) (mono : ℚ) (st : ClientState)
        (e0 e1 : RTEError),
      st.cb_state = .closed → outs 0 = .failure e0 → retryable e0 = true →
      outs 1 = .failure e1 → nonRetryableCaught e1 = true →
      async_get_tempo_data outs mono st =
        { result := .rteErr e1,
          state := cb_on_failure (cb_on_failure st mono) mono,
          sleeps := [backoff_wait 0 e0], attempts := 2 }) ∧
    (∀ (outs : Nat → FetchOutcome) (mono : ℚ) (st : ClientState)
        (e0 e1 : RTEError) (p : Json) (d : TempoData),
      st.cb_state = .closed →
      outs 0 = .failure e0 → retryable e0 = true →
      outs 1 = .failure e1 → retryable e1 = true →
      outs 2 = .success p → parse_response p = .ok d →
      async_get_tempo_data outs mono st =
        { result := .ok d,
          state := cb_on_success (cb_on_failure (cb_on_failure st mono) mono),
          sleeps := [backoff_wait 0 e0, backoff_wait 1 e1], attempts := 3 }) ∧
    (∀ (outs : Nat → FetchOutcome) (mono : ℚ) (st : ClientState)
        (e0 e1 e2 : RTEError),
      st.cb_state = .closed →
      outs 0 = .failure e0 → retryable e0 = true →
      outs 1 = .failure e1 → retryable e1 = true →
      outs 2 = .failure e2 → retryable e2 = true →
      async_get_tempo_data outs mono st =
        { result := .rteErr e2,
          state := cb_on_failure (cb_on_failure (cb_on_failure st mono) mono) mono,
          sleeps := [backoff_wait 0 e0, backoff_wait 1 e1], attempts := 3 }) ∧
    (∀ (i : Nat) (r : ℚ), backoff_wait i (.rateLimitError (some r)) =
      max (BACKOFF_BASE * 2 ^ i) r) ∧
    (∀ (i : Nat) (c : Nat), backoff_wait i (.serverError c) =
      BACKOFF_BASE * 2 ^ i) ∧
    (∀ (i : Nat) (m : String), backoff_wait i (.connectionError m) =
      BACKOFF_BASE * 2 ^ i) ∧
    (∀ i : Nat, backoff_wait i (.rateLimitError none) =
      BACKOFF_BASE * 2 ^ i) := by
  refine ⟨?_, ?_, ?_, ?_, ?_, ?_, ?_, ?_, ?_⟩
  · intro outs mono st
    unfold async_get_tempo_data
    cases hcb : check_circuit_breaker st mono with
    | error e => exact Nat.zero_le 3
    | ok st1 => exact attempt_loop_attempts_le outs mono MAX_RETRIES st1 0
  · intro outs mono st e hst h0 hc
    rw [async_closed outs mono st hst]
    unfold MAX_RETRIES
    unfold attempt_loop
    rw [h0]
    dsimp only
    rw [if_neg (by rw [nonRetryableCaught_not_retryable e hc]; exact
      Bool.false_ne_true), if_pos hc]
  · intro outs mono st e0 e1 hst h0 hr0 h1 hc1
    rw [async_closed outs mono st hst]
    unfold MAX_RETRIES
    unfold attempt_loop
    rw [h0]
    dsimp only
    rw [if_pos hr0, if_neg (by omega : ¬ (2 = 0))]
    unfold attempt_loop
    rw [h1]
    dsimp only
    rw [if_neg (by rw [nonRetryableCaught_not_retryable e1 hc1]; exact
      Bool.false_ne_true), if_pos hc1]
  · intro outs mono st e0 e1 p d hst h0 hr0 h1 hr1 h2 hp
    rw [async_closed outs mono st hst]
    unfold MAX_RETRIES
    unfold attempt_loop
    rw [h0]
    dsimp only
    rw [if_pos hr0, if_neg (by omega : ¬ (2 = 0))]
    unfold attempt_loop
    rw [h1]
    dsimp only
    rw [if_pos hr1, if_neg (by omega : ¬ (1 = 0))]
    unfold attempt_loop
    rw [h2]
    dsimp only
    rw [hp]
  · intro outs mono st e0 e1 e2 hst h0 hr0 h1 hr1 h2 hr2
    rw [async_closed outs mono st hst]
    unfold MAX_RETRIES
    unfold attempt_loop
    rw [h0]
    dsimp only
    rw [if_pos hr0, if_neg (by omega : ¬ (2 = 0))]
    unfold attempt_loop
    rw [h1]
    dsimp only
    rw [if_pos hr1, if_neg (by omega : ¬ (1 = 0))]
    unfold attempt_loop
    rw [h2]
    dsimp only
    rw [if_pos hr2, if_pos rfl]
  · intro i r
    unfold backoff_wait
    dsimp only
    by_cases hr : r = 0
    · subst hr
      rw [if_pos rfl]
      rw [max_eq_left (by unfold BACKOFF_BASE; positivity)]
    · rw [if_neg hr]
  · intro i c
    rfl
  · intro i m
    rfl
  · intro i
    rfl

/-- C3 witness: two server errors then a parsed empty 200 payload:
3 attempts, sleeps `[1, 2]`; and the rate-limit backoff at attempt 0
with `Retry-After` 10 is 10. -/
theorem retry_policy_spec_witness :
    async_get_tempo_data
        (fun n => match n with
          | 0 => .failure (.serverError 500)
          | 1 => .failure (.serverError 502)
          | _ => .success (mkPayload []))
        7 cb_init =
      { result := .ok { adjusted_days := [], regular_days := [], data_end := none },
        state := cb_on_success (cb_on_failure (cb_on_failure cb_init 7) 7),
        sleeps := [backoff_wait 0 (.serverError 500),
          backoff_wait 1 (.serverError 502)],
        attempts := 3 } ∧
    backoff_wait 0 (.rateLimitError (some 10)) =
      max (BACKOFF_BASE * 2 ^ 0) 10 := by
  constructor
  · exact retry_policy_spec.2.2.2.1
      (fun n => match n with
        | 0 => .failure (.serverError 500)
        | 1 => .failure (.serverError 502)
        | _ => .success (mkPayload []))
      7 cb_init (.serverError 500) (.serverError 502) (mkPayload [])
      { adjusted_days := [], regular_days := [], data_end := none }
      rfl rfl rfl rfl rfl rfl rfl
  · exact retry_policy_spec.2.2.2.2.2.1 0 10

/-! ## C9: the horizon -/

/-- Lexicographic `<` on dates never holds reflexively. -/
theorem dateLt_irrefl (a : Date) : dateLt a a = false := by
  simp only [dateLt, decide_eq_false_iff_not]
  omega

/-- Lexicographic `<` on dates is asymmetric. -/
theorem dateLt_asymm (a b : Date) (h : dateLt a b = true) : dateLt b a = false := by
  simp only [dateLt, decide_eq_true_eq] at h
  simp only [dateLt, decide_eq_false_iff_not]
  omega

/-- Not-less-than on dates is transitive. -/
theorem dateLt_notlt_trans (a b c : Date) (hab : dateLt a b = false)
    (hbc : dateLt b c = false) : dateLt a c = false := by
  simp only [dateLt, decide_eq_false_iff_not] at hab hbc ⊢
  omega

/-- The running maximum of `py_max_by_end` dominates the seed and every
element of the list (no end date is strictly greater). -/
theorem py_max_by_end_ge : ∀ (t : List (TempoDay Date)) (best : TempoDay Date),
    dateLt (py_max_by_end best t).end_ best.end_ = false ∧
    ∀ d ∈ t, dateLt (py_max_by_end best t).end_ d.end_ = false := by
  intro t
  induction t with
  | nil =>
    intro best
    exact ⟨dateLt_irrefl _, by intro d hd; cases hd⟩
  | cons e t ih =>
    intro best
    have hrec : py_max_by_end best (e :: t) =
        py_max_by_end (if dateLt best.end_ e.end_ then e else best) t := rfl
    have ih2 := ih (if dateLt best.end_ e.end_ then e else best)
    have hb2_best : dateLt (if dateLt best.end_ e.end_ then e else best).end_
        best.end_ = false := by
      by_cases hlt : dateLt best.end_ e.end_ = true
      · rw [if_pos hlt]
        exact dateLt_asymm _ _ hlt
      · rw [if_neg hlt]
        exact dateLt_irrefl _
    have hb2_e : dateLt (if dateLt best.end_ e.end_ then e else best).end_
        e.end_ = false := by
      by_cases hlt : dateLt best.end_ e.end_ = true
      · rw [if_pos hlt]
        exact dateLt_irrefl _
      · rw [if_neg hlt]
        simpa using hlt
    refine ⟨?_, ?_⟩
    · rw [hrec]
      exact dateLt_notlt_trans _ _ _ ih2.1 hb2_best
    · intro x hx
      rw [hrec]
      rcases List.mem_cons.mp hx with hxe | hxt
      · subst hxe
        exact dateLt_notlt_trans _ _ _ ih2.1 hb2_e
      · exact ih2.2 x hxt

/-- The running maximum of `py_max_by_end` is the seed or one of the
list elements. -/
theorem py_max_by_end_mem : ∀ (t : List (TempoDay Date)) (best : TempoDay Date),
    py_max_by_end best t = best ∨ py_max_by_end best t ∈ t := by
  intro t
  induction t with
  | nil =>
    intro best
    exact Or.inl rfl
  | cons e t ih =>
    intro best
    have hrec : py_max_by_end best (e :: t) =
        py_max_by_end (if dateLt best.end_ e.end_ then e else best) t := rfl
    rw [hrec]
    rcases ih (if dateLt best.end_ e.end_ then e else best) with heq | hmem
    · rw [heq]
      by_cases hlt : dateLt best.end_ e.end_ = true
      · rw [if_pos hlt]
        exact Or.inr (List.mem_cons_self e t)
      · rw [if_neg hlt]
        exact Or.inl rfl
    · exact Or.inr (List.mem_cons_of_mem e hmem)

/-- A successful `_parse_response` computes `data_end` from its own
regular days. -/
theorem parse_response_data_end (payload : Json) (data : TempoData)
    (hok : parse_response payload = .ok data) :
    data.data_end = data_end_of data.regular_days := by
  unfold parse_response at hok
  cases h1 : jGet payload API_KEY_RESULTS with
  | error e =>
    rw [h1] at hok
    exact absurd hok (by simp)
  | ok cals =>
    rw [h1] at hok
    dsimp only at hok
    cases h2 : jGet cals API_KEY_VALUES with
    | error e =>
      rw [h2] at hok
      exact absurd hok (by simp)
    | ok v =>
      rw [h2] at hok
      cases v with
      | obj fs =>
        dsimp only at hok
        exact absurd hok (by simp)
      | str sv =>
        dsimp only at hok
        exact absurd hok (by simp)
      | arr entries =>
        dsimp only at hok
        cases hpe : parse_entries entries with
        | error e =>
          rw [hpe] at hok
          exact absurd hok (by simp)
        | ok pr =>
          obtain ⟨adj, reg⟩ := pr
          rw [hpe] at hok
          dsimp only at hok
          injection hok with hrec
          rw [← hrec]

/-- C9: the horizon (`data_end`) is the date-aligned end of the regular
day with the maximum end, normalized to midnight in the reference
timezone (the `LocalDT` with zeroed time fields handed to the
coordinator as a `FRANCE_TZ` datetime); and it is null exactly when no
entry parsed. -/
theorem horizon_spec (payload : Json) (data : TempoData)
    (hok : parse_response payload = .ok data) :
    (data.data_end = none ↔ data.regular_days = []) ∧
    (∀ (h : TempoDay Date) (t : List (TempoDay Date)),
      data.regular_days = h :: t →
      data.data_end = some ⟨((py_max_by_end h t).end_.year : Int),
        ((py_max_by_end h t).end_.month : Int),
        ((py_max_by_end h t).end_.day : Int), 0, 0, 0⟩ ∧
      py_max_by_end h t ∈ data.regular_days ∧
      ∀ d ∈ data.regular_days, dateLt (py_max_by_end h t).end_ d.end_ = false) := by
  have hde := parse_response_data_end payload data hok
  constructor
  · rw [hde]
    cases hreg : data.regular_days with
    | nil => simp [data_end_of]
    | cons h t => simp [data_end_of]
  · intro h t hreg
    rw [hde, hreg]
    refine ⟨rfl, ?_, ?_⟩
    · rcases py_max_by_end_mem t h with he | hm
      · rw [he]
        exact List.mem_cons_self h t
      · exact List.mem_cons_of_mem h hm
    · intro d hd
      rcases List.mem_cons.mp hd with hdh | hdt
      · rw [hdh]
        exact (py_max_by_end_ge t h).1
      · exact (py_max_by_end_ge t h).2 d hdt

/-! ## C7/C8: per-entry parsing -/

/-- A successful field lookup makes the field present. -/
theorem hasField_of_jGet_ok (e : Json) (k : String) (v : Json)
    (h : jGet e k = .ok v) : hasField e k = true := by
  unfold hasField
  rw [h]

/-- A failed field lookup makes the field absent for `hasField`. -/
theorem hasField_of_jGet_err (e : Json) (k : String) (pe : PyExc)
    (h : jGet e k = .error pe) : hasField e k = false := by
  unfold hasField
  rw [h]

/-- A string field read succeeds exactly on a present string value. -/
theorem jGetStr_ok_inv (e : Json) (k : String) (sv : String)
    (h : jGetStr e k = .ok sv) : jGet e k = .ok (.str sv) := by
  unfold jGetStr at h
  cases hj : jGet e k with
  | error e2 =>
    rw [hj] at h
    simp at h
  | ok v =>
    rw [hj] at h
    cases v with
    | str s2 =>
      dsimp only at h
      injection h with h2
      rw [h2]
    | obj fs => simp at h
    | arr xs => simp at h

/-- A `KeyError` from a string field read is a `KeyError` of the lookup. -/
theorem jGetStr_keyError_inv (e : Json) (k k2 : String)
    (h : jGetStr e k = .error (.keyError k2)) :
    jGet e k = .error (.keyError k2) := by
  unfold jGetStr at h
  cases hj : jGet e k with
  | error e2 =>
    rw [hj] at h
    dsimp only at h
    injection h with h2
    rw [h2]
  | ok v =>
    rw [hj] at h
    cases v with
    | str s2 => simp at h
    | obj fs => simp at h
    | arr xs => simp at h

/-- Datetime parsing raises `ValueError`, never `KeyError`. -/
theorem parse_rte_api_datetime_no_keyError (s k : String) :
    parse_rte_api_datetime s ≠ .error (.keyError k) := by
  unfold parse_rte_api_datetime
  cases strptime_api (strip_offset_colon s) <;> simp

/-- A successfully parsed entry has all four fields present and its two
days share `value` and `updated`. -/
theorem parse_entry_ok_inv (entry : Json) (a : TempoDay DateTime)
    (r : TempoDay Date) (h : parse_entry entry = .ok (a, r)) :
    a.value = r.value ∧ a.updated = r.updated ∧ hasAllFields entry = true := by
  unfold parse_entry at h
  cases h1 : jGetStr entry API_KEY_START with
  | error e1 => rw [h1] at h; simp at h
  | ok sRaw =>
    rw [h1] at h
    dsimp only at h
    cases h2 : parse_rte_api_datetime sRaw with
    | error e2 => rw [h2] at h; simp at h
    | ok sdt =>
      rw [h2] at h
      dsimp only at h
      cases h3 : jGetStr entry API_KEY_END with
      | error e3 => rw [h3] at h; simp at h
      | ok eRaw =>
        rw [h3] at h
        dsimp only at h
        cases h4 : parse_rte_api_datetime eRaw with
        | error e4 => rw [h4] at h; simp at h
        | ok edt =>
          rw [h4] at h
          dsimp only at h
          cases h5 : jGet entry API_KEY_VALUE with
          | error e5 => rw [h5] at h; simp at h
          | ok v =>
            rw [h5] at h
            dsimp only at h
            cases h6 : jGetStr entry API_KEY_UPDATED with
            | error e6 => rw [h6] at h; simp at h
            | ok uRaw =>
              rw [h6] at h
              dsimp only at h
              cases h7 : parse_rte_api_datetime uRaw with
              | error e7 => rw [h7] at h; simp at h
              | ok udt =>
                rw [h7] at h
                dsimp only at h
                injection h with hpair
                injection hpair with ha hr
                refine ⟨?_, ?_, ?_⟩
                · rw [← ha, ← hr]
                · rw [← ha, ← hr]
                · unfold hasAllFields
                  rw [hasField_of_jGet_ok entry API_KEY_START _
                      (jGetStr_ok_inv entry API_KEY_START sRaw h1),
                    hasField_of_jGet_ok entry API_KEY_END _
                      (jGetStr_ok_inv entry API_KEY_END eRaw h3),
                    hasField_of_jGet_ok entry API_KEY_VALUE v h5,
                    hasField_of_jGet_ok entry API_KEY_UPDATED _
                      (jGetStr_ok_inv entry API_KEY_UPDATED uRaw h6)]
                  rfl

/-- An entry skipped with `KeyError` is missing one of the four required
fields. -/
theorem parse_entry_keyError_inv (entry : Json) (k : String)
    (h : parse_entry entry = .error (.keyError k)) :
    hasAllFields entry = false := by
  unfold parse_entry at h
  cases h1 : jGetStr entry API_KEY_START with
  | error e1 =>
    rw [h1] at h
    dsimp only at h
    injection h with he
    rw [he] at h1
    unfold hasAllFields
    rw [hasField_of_jGet_err entry API_KEY_START _
      (jGetStr_keyError_inv entry API_KEY_START k h1)]
    rfl
  | ok sRaw =>
    rw [h1] at h
    dsimp only at h
    cases h2 : parse_rte_api_datetime sRaw with
    | error e2 =>
      rw [h2] at h
      dsimp only at h
      injection h with he
      rw [he] at h2
      exact absurd h2 (parse_rte_api_datetime_no_keyError sRaw k)
    | ok sdt =>
      rw [h2] at h
      dsimp only at h
      cases h3 : jGetStr entry API_KEY_END with
      | error e3 =>
        rw [h3] at h
        dsimp only at h
        injection h with he
        rw [he] at h3
        unfold hasAllFields
        rw [hasField_of_jGet_err entry API_KEY_END _
          (jGetStr_keyError_inv entry API_KEY_END k h3)]
        simp
      | ok eRaw =>
        rw [h3] at h
        dsimp only at h
        cases h4 : parse_rte_api_datetime eRaw with
        | error e4 =>
          rw [h4] at h
          dsimp only at h
          injection h with he
          rw [he] at h4
          exact absurd h4 (parse_rte_api_datetime_no_keyError eRaw k)
        | ok edt =>
          rw [h4] at h
          dsimp only at h
          cases h5 : jGet entry API_KEY_VALUE with
          | error e5 =>
            rw [h5] at h
            dsimp only at h
            injection h with he
            rw [he] at h5
            unfold hasAllFields
            rw [hasField_of_jGet_err entry API_KEY_VALUE _ h5]
            simp
          | ok v =>
            rw [h5] at h
            dsimp only at h
            cases h6 : jGetStr entry API_KEY_UPDATED with
            | error e6 =>
              rw [h6] at h
              dsimp only at h
              injection h with he
              rw [he] at h6
              unfold hasAllFields
              rw [hasField_of_jGet_err entry API_KEY_UPDATED _
                (jGetStr_keyError_inv entry API_KEY_UPDATED k h6)]
              simp
            | ok uRaw =>
              rw [h6] at h
              dsimp only at h
              cases h7 : parse_rte_api_datetime uRaw with
              | error e7 =>
                rw [h7] at h
                dsimp only at h
                injection h with he
                rw [he] at h7
                exact absurd h7 (parse_rte_api_datetime_no_keyError uRaw k)
              | ok udt =>
                rw [h7] at h
                simp at h

/-- The entry loop, characterized: exactly the entries with all four
fields contribute, one day to each list, pairwise sharing `value` and
`updated`. -/
theorem parse_entries_spec : ∀ (entries : List Json)
    (adj : List (TempoDay DateTime)) (reg : List (TempoDay Date)),
    parse_entries entries = .ok (adj, reg) →
    adj.length = reg.length ∧
    reg.length = entries.countP hasAllFields ∧
    ∀ (i : Nat) (hia : i < adj.length) (hir : i < reg.length),
      (adj.get ⟨i, hia⟩).value = (reg.get ⟨i, hir⟩).value ∧
      (adj.get ⟨i, hia⟩).updated = (reg.get ⟨i, hir⟩).updated := by
  intro entries
  induction entries with
  | nil =>
    intro adj reg h
    unfold parse_entries at h
    injection h with hpr
    injection hpr with ha hr
    subst ha
    subst hr
    refine ⟨rfl, rfl, ?_⟩
    intro i hia hir
    exact absurd hia (by simp)
  | cons e rest ih =>
    intro adj reg h
    unfold parse_entries at h
    cases hpe : parse_entry e with
    | error pe =>
      rw [hpe] at h
      cases pe with
      | keyError k =>
        dsimp only at h
        have hfields := parse_entry_keyError_inv e k hpe
        obtain ⟨hlen, hcount, hpair⟩ := ih adj reg h
        refine ⟨hlen, ?_, hpair⟩
        rw [List.countP_cons, hfields]
        simpa using hcount
      | valueError s2 => simp at h
      | typeError => simp at h
    | ok pr =>
      obtain ⟨a1, r1⟩ := pr
      rw [hpe] at h
      dsimp only at h
      cases hrest : parse_entries rest with
      | error e2 => rw [hrest] at h; simp at h
      | ok pr2 =>
        obtain ⟨as_, rs⟩ := pr2
        rw [hrest] at h
        dsimp only at h
        injection h with hpr2
        injection hpr2 with ha hr
        subst ha
        subst hr
        obtain ⟨hlen, hcount, hpair⟩ := ih as_ rs hrest
        obtain ⟨hv, hu, hfields⟩ := parse_entry_ok_inv e a1 r1 hpe
        refine ⟨?_, ?_, ?_⟩
        · simp [hlen]
        · rw [List.countP_cons, hfields]
          simp [hcount]
        · intro i hia hir
          cases i with
          | zero => exact ⟨hv, hu⟩
          | succ n =>
            have hia2 : n < as_.length := by
              simp only [List.length_cons] at hia
              omega
            have hir2 : n < rs.length := by
              simp only [List.length_cons] at hir
              omega
            exact hpair n hia2 hir2

/-- C7: for every payload whose top-level lookups expose the entry list
and whose parse returns, the two output lists have equal length, equal
to the number of source entries carrying all four required fields, and
the days at each position share `colorValue` and `updatedAt`; an entry
missing a required field contributes to neither list. -/
theorem parse_pairing_spec (payload cals : Json) (entries : List Json)
    (data : TempoData)
    (hcals : jGet payload API_KEY_RESULTS = .ok cals)
    (hvals : jGet cals API_KEY_VALUES = .ok (.arr entries))
    (hok : parse_response payload = .ok data) :
    data.adjusted_days.length = data.regular_days.length ∧
    data.regular_days.length = entries.countP hasAllFields ∧
    ∀ (i : Nat) (hia : i < data.adjusted_days.length)
      (hir : i < data.regular_days.length),
      (data.adjusted_days.get ⟨i, hia⟩).value =
        (data.regular_days.get ⟨i, hir⟩).value ∧
      (data.adjusted_days.get ⟨i, hia⟩).updated =
        (data.regular_days.get ⟨i, hir⟩).updated := by
  unfold parse_response at hok
  rw [hcals] at hok
  dsimp only at hok
  rw [hvals] at hok
  dsimp only at hok
  cases hpe : parse_entries entries with
  | error e => rw [hpe] at hok; simp at hok
  | ok pr =>
    obtain ⟨adj, reg⟩ := pr
    rw [hpe] at hok
    dsimp only at hok
    injection hok with hrec
    rw [← hrec]
    exact parse_entries_spec entries adj reg hpe

/-- C7 witness: an entry with no fields at all parses to two empty lists
whose common length is the number of fully-fielded entries, zero. -/
theorem parse_pairing_spec_witness :
    (({ adjusted_days := [], regular_days := [], data_end := none } :
      TempoData)).regular_days.length = [Json.obj []].countP hasAllFields := by
  exact (parse_pairing_spec (mkPayload [Json.obj []])
    (Json.obj [(API_KEY_VALUES, Json.arr [Json.obj []])]) [Json.obj []]
    { adjusted_days := [], regular_days := [], data_end := none }
    rfl rfl rfl).2.1

/-- C8 counterexample: an individual entry with all four fields present
but an unparseable `start_date` raises `ValueError` out of the whole
parse (`except KeyError` does not catch it), while the same payload
shape with no entries parses fine — so a malformed individual entry does
fail the whole call, contradicting the claim. -/
theorem parse_never_raises_counterexample :
    parse_response (mkPayload [Json.obj [(API_KEY_START, Json.str "XX"),
      (API_KEY_END, Json.str "2024-01-16T00:00:00+01:00"),
      (API_KEY_VALUE, Json.str "BLUE"),
      (API_KEY_UPDATED, Json.str "2024-01-15T10:00:00+01:00")]]) =
      .error (PyExc.valueError "XX") ∧
    parse_response (mkPayload []) =
      .ok { adjusted_days := [], regular_days := [], data_end := none } :=
  ⟨rfl, rfl⟩

/-- The entry loop cannot raise when no entry is fatal (its only caught
exception being `KeyError`). -/
theorem parse_entries_total : ∀ entries : List Json,
    (∀ e ∈ entries, entryFatal e = false) →
    ∃ pr, parse_entries entries = .ok pr := by
  intro entries
  induction entries with
  | nil =>
    intro _
    exact ⟨([], []), rfl⟩
  | cons e rest ih =>
    intro hfat
    have hfe := hfat e (List.mem_cons_self e rest)
    obtain ⟨pr2, hrest⟩ := ih (fun x hx => hfat x (List.mem_cons_of_mem e hx))
    unfold parse_entries
    cases hpe : parse_entry e with
    | error pe =>
      cases pe with
      | keyError k =>
        dsimp only
        exact ⟨pr2, hrest⟩
      | valueError s2 =>
        exfalso
        unfold entryFatal at hfe
        rw [hpe] at hfe
        simp at hfe
      | typeError =>
        exfalso
        unfold entryFatal at hfe
        rw [hpe] at hfe
        simp at hfe
    | ok pr1 =>
      obtain ⟨a1, r1⟩ := pr1
      obtain ⟨as_, rs⟩ := pr2
      dsimp only
      rw [hrest]
      exact ⟨(a1 :: as_, r1 :: rs), rfl⟩

/-- C8 (amended): the parser never raises for entries whose only
malformation is a missing required field — each entry is attempted
independently, missing-field entries are skipped (excluded from both
lists) and the call returns; but an entry with a present field whose
value is not a parseable timestamp (or not a string) raises and fails
the whole call, since only `KeyError` is caught per entry. -/
theorem parse_recovers_missing_fields_spec (entries : List Json)
    (hsafe : ∀ e ∈ entries, entryFatal e = false) :
    ∃ data : TempoData, parse_response (mkPayload entries) = .ok data ∧
      data.regular_days.length = entries.countP hasAllFields := by
  obtain ⟨⟨adj, reg⟩, hpe⟩ := parse_entries_total entries hsafe
  refine ⟨{ adjusted_days := adj, regular_days := reg, data_end := data_end_of reg },
    ?_, ?_⟩
  · unfold parse_response
    have h1 : jGet (mkPayload entries) API_KEY_RESULTS =
        .ok (.obj [(API_KEY_VALUES, .arr entries)]) := rfl
    rw [h1]
    dsimp only
    have h2 : jGet (Json.obj [(API_KEY_VALUES, Json.arr entries)])
        API_KEY_VALUES = .ok (.arr entries) := rfl
    rw [h2]
    dsimp only
    rw [hpe]
  · exact (parse_entries_spec entries adj reg hpe).2.1

/-- C8 witness: the amended statement at a one-entry payload whose entry
misses every field. -/
theorem parse_recovers_missing_fields_spec_witness :
    entryFatal (Json.obj []) = false ∧
    ∃ data : TempoData, parse_response (mkPayload [Json.obj []]) = .ok data ∧
      data.regular_days.length = [Json.obj []].countP hasAllFields := by
  refine ⟨rfl, ?_⟩
  exact parse_recovers_missing_fields_spec [Json.obj []]
    (fun e he => by rw [List.mem_singleton] at he; subst he; rfl)

/-- The payload entry of the C9 witness. -/
def c9Entry : Json := Json.obj
  [(API_KEY_START, Json.str "2024-01-15T00:00:00+01:00"),
   (API_KEY_END, Json.str "2024-01-16T00:00:00+01:00"),
   (API_KEY_VALUE, Json.str "BLUE"),
   (API_KEY_UPDATED, Json.str "2024-01-15T10:00:00+01:00")]

/-- The regular day the C9 witness payload parses to. -/
def c9Day : TempoDay Date :=
  { start := ⟨2024, 1, 15⟩, end_ := ⟨2024, 1, 16⟩, value := Json.str "BLUE",
    updated := ⟨2024, 1, 15, 10, 0, 0, 60⟩ }

/-- The hour-shifted day the C9 witness payload parses to. -/
def c9Adj : TempoDay DateTime :=
  { start := ⟨2024, 1, 15, 6, 0, 0, 60⟩, end_ := ⟨2024, 1, 16, 6, 0, 0, 60⟩,
    value := Json.str "BLUE", updated := ⟨2024, 1, 15, 10, 0, 0, 60⟩ }

/-- The full parse result of the C9 witness payload. -/
def c9Data : TempoData :=
  { adjusted_days := [c9Adj], regular_days := [c9Day],
    data_end := some ⟨2024, 1, 16, 0, 0, 0⟩ }

/-- C9 witness: one parsed entry ending 2024-01-16 gives the horizon
2024-01-16 at midnight, and the maximal day is in the list. -/
theorem horizon_spec_witness :
    c9Data.data_end = some ⟨((py_max_by_end c9Day []).end_.year : Int),
      ((py_max_by_end c9Day []).end_.month : Int),
      ((py_max_by_end c9Day []).end_.day : Int), 0, 0, 0⟩ ∧
    py_max_by_end c9Day [] ∈ c9Data.regular_days := by
  have h := horizon_spec (mkPayload [c9Entry]) c9Data rfl
  have h2 := h.2 c9Day [] rfl
  exact ⟨h2.1, h2.2.1⟩

/-! ## C10: format/parse round trip -/

/-- A digit character read back gives the digit. -/
theorem digitVal_digitChar (m : Nat) (hm : m ≤ 9) :
    digitVal (digitChar m) = m := by
  interval_cases m <;> rfl

/-- A digit character is a digit. -/
theorem isDigitChar_digitChar (m : Nat) (hm : m ≤ 9) :
    isDigitChar (digitChar m) = true := by
  interval_cases m <;> rfl

/-- Two zero-padded digits recompose to the value. -/
theorem two_digit_recompose (n : Nat) (h : n ≤ 99) :
    digitVal (digitChar (n / 10 % 10)) * 10 + digitVal (digitChar (n % 10)) = n := by
  rw [digitVal_digitChar _ (by omega), digitVal_digitChar _ (by omega)]
  omega

/-- Four zero-padded digits recompose to the value. -/
theorem four_digit_recompose (n : Nat) (h : n ≤ 9999) :
    digitVal (digitChar (n / 1000 % 10)) * 1000 +
      digitVal (digitChar (n / 100 % 10)) * 100 +
      digitVal (digitChar (n / 10 % 10)) * 10 + digitVal (digitChar (n % 10)) = n := by
  rw [digitVal_digitChar _ (by omega), digitVal_digitChar _ (by omega),
    digitVal_digitChar _ (by omega), digitVal_digitChar _ (by omega)]
  omega

/-- Every month length is at most 31. -/
theorem daysInMonth_le (y m : Nat) : daysInMonth y m ≤ 31 := by
  unfold daysInMonth
  split
  · split <;> omega
  all_goals omega

/-- The fields a real `datetime.datetime` can carry (year 1000-9999 so
`%Y` is four digits, valid calendar date, clock fields in range, offset
strictly within ±24 hours). -/
def validApiDateTime (d : DateTime) : Prop :=
  1000 ≤ d.year ∧ d.year ≤ 9999 ∧ 1 ≤ d.month ∧ d.month ≤ 12 ∧
  1 ≤ d.day ∧ d.day ≤ daysInMonth d.year d.month ∧ d.hour ≤ 23 ∧
  d.minute ≤ 59 ∧ d.second ≤ 59 ∧ d.offsetMinutes.natAbs ≤ 1439

instance (d : DateTime) : Decidable (validApiDateTime d) := by
  unfold validApiDateTime
  infer_instance

/-- C10: formatting a datetime with the outbound query format
(`strftime` with `API_DATE_FORMAT`, then inserting the offset colon as
`_async_fetch` does) and parsing the result with
`parse_rte_api_datetime` (which strips the offset colon before
`strptime` with the same format) recovers the original instant — the
colon insertion and colon stripping are mutually inverse on these
strings. -/
theorem api_datetime_roundtrip (d : DateTime) (hv : validApiDateTime d) :
    parse_rte_api_datetime (insert_offset_colon (strftime_api d)) = .ok d := by
  obtain ⟨hy1, hy2, hm1, hm2, hd1, hd2, hh, hmin, hs, hoff⟩ := hv
  have hstrip : strip_offset_colon (insert_offset_colon (strftime_api d)) =
      String.mk [digitChar (d.year / 1000 % 10), digitChar (d.year / 100 % 10),
        digitChar (d.year / 10 % 10), digitChar (d.year % 10), '-',
        digitChar (d.month / 10 % 10), digitChar (d.month % 10), '-',
        digitChar (d.day / 10 % 10), digitChar (d.day % 10), 'T',
        digitChar (d.hour / 10 % 10), digitChar (d.hour % 10), ':',
        digitChar (d.minute / 10 % 10), digitChar (d.minute % 10), ':',
        digitChar (d.second / 10 % 10), digitChar (d.second % 10),
        (if d.offsetMinutes < 0 then '-' else '+'),
        digitChar (d.offsetMinutes.natAbs / 60 / 10 % 10),
        digitChar (d.offsetMinutes.natAbs / 60 % 10),
        digitChar (d.offsetMinutes.natAbs % 60 / 10 % 10),
        digitChar (d.offsetMinutes.natAbs % 60 % 10)] := rfl
  have hyear := four_digit_recompose d.year (by omega)
  have hmonth := two_digit_recompose d.month (by omega)
  have hday := two_digit_recompose d.day
    (by have := daysInMonth_le d.year d.month; omega)
  have hhour := two_digit_recompose d.hour (by omega)
  have hminute := two_digit_recompose d.minute (by omega)
  have hsecond := two_digit_recompose d.second (by omega)
  have hoffh := two_digit_recompose (d.offsetMinutes.natAbs / 60) (by omega)
  have hoffm := two_digit_recompose (d.offsetMinutes.natAbs % 60) (by omega)
  have hval : 1 ≤ d.month ∧ d.month ≤ 12 ∧ 1 ≤ d.day ∧
      d.day ≤ daysInMonth d.year d.month ∧ d.hour ≤ 23 ∧ d.minute ≤ 59 ∧
      d.second ≤ 59 ∧ d.offsetMinutes.natAbs / 60 ≤ 23 ∧
      d.offsetMinutes.natAbs % 60 ≤ 59 :=
    ⟨hm1, hm2, hd1, hd2, hh, hmin, hs, by omega, by omega⟩
  have hrecomp : d.offsetMinutes.natAbs / 60 * 60 + d.offsetMinutes.natAbs % 60 =
      d.offsetMinutes.natAbs := by omega
  unfold parse_rte_api_datetime
  rw [hstrip]
  by_cases hsign : d.offsetMinutes < 0
  · rw [if_pos hsign]
    have hparse : strptime_api (String.mk [digitChar (d.year / 1000 % 10),
        digitChar (d.year / 100 % 10), digitChar (d.year / 10 % 10),
        digitChar (d.year % 10), '-', digitChar (d.month / 10 % 10),
        digitChar (d.month % 10), '-', digitChar (d.day / 10 % 10),
        digitChar (d.day % 10), 'T', digitChar (d.hour / 10 % 10),
        digitChar (d.hour % 10), ':', digitChar (d.minute / 10 % 10),
        digitChar (d.minute % 10), ':', digitChar (d.second / 10 % 10),
        digitChar (d.second % 10), '-',
        digitChar (d.offsetMinutes.natAbs / 60 / 10 % 10),
        digitChar (d.offsetMinutes.natAbs / 60 % 10),
        digitChar (d.offsetMinutes.natAbs % 60 / 10 % 10),
        digitChar (d.offsetMinutes.natAbs % 60 % 10)]) = some d := by
      unfold strptime_api
      dsimp only
      split
      · rw [hyear, hmonth, hday, hhour, hminute, hsecond, hoffh, hoffm]
        rw [if_pos hval]
        rw [if_pos rfl, hrecomp]
        have hneg : -((d.offsetMinutes.natAbs : Nat) : Int) = d.offsetMinutes := by
          omega
        rw [hneg]
      · rename_i hnc
        exact absurd ⟨rfl, rfl, rfl, rfl, rfl, Or.inr rfl,
          isDigitChar_digitChar _ (by omega), isDigitChar_digitChar _ (by omega),
          isDigitChar_digitChar _ (by omega), isDigitChar_digitChar _ (by omega),
          isDigitChar_digitChar _ (by omega), isDigitChar_digitChar _ (by omega),
          isDigitChar_digitChar _ (by omega), isDigitChar_digitChar _ (by omega),
          isDigitChar_digitChar _ (by omega), isDigitChar_digitChar _ (by omega),
          isDigitChar_digitChar _ (by omega), isDigitChar_digitChar _ (by omega),
          isDigitChar_digitChar _ (by omega), isDigitChar_digitChar _ (by omega),
          isDigitChar_digitChar _ (by omega), isDigitChar_digitChar _ (by omega),
          isDigitChar_digitChar _ (by omega), isDigitChar_digitChar _ (by omega)⟩ hnc
    rw [hparse]
  · rw [if_neg hsign]
    have hparse : strptime_api (String.mk [digitChar (d.year / 1000 % 10),
        digitChar (d.year / 100 % 10), digitChar (d.year / 10 % 10),
        digitChar (d.year % 10), '-', digitChar (d.month / 10 % 10),
        digitChar (d.month % 10), '-', digitChar (d.day / 10 % 10),
        digitChar (d.day % 10), 'T', digitChar (d.hour / 10 % 10),
        digitChar (d.hour % 10), ':', digitChar (d.minute / 10 % 10),
        digitChar (d.minute % 10), ':', digitChar (d.second / 10 % 10),
        digitChar (d.second % 10), '+',
        digitChar (d.offsetMinutes.natAbs / 60 / 10 % 10),
        digitChar (d.offsetMinutes.natAbs / 60 % 10),
        digitChar (d.offsetMinutes.natAbs % 60 / 10 % 10),
        digitChar (d.offsetMinutes.natAbs % 60 % 10)]) = some d := by
      unfold strptime_api
      dsimp only
      split
      · rw [hyear, hmonth, hday, hhour, hminute, hsecond, hoffh, hoffm]
        rw [if_pos hval]
        rw [if_neg (by decide : ¬ ('+' = '-')), hrecomp]
        have hpos : ((d.offsetMinutes.natAbs : Nat) : Int) = d.offsetMinutes := by
          omega
        rw [hpos]
      · rename_i hnc
        exact absurd ⟨rfl, rfl, rfl, rfl, rfl, Or.inl rfl,
          isDigitChar_digitChar _ (by omega), isDigitChar_digitChar _ (by omega),
          isDigitChar_digitChar _ (by omega), isDigitChar_digitChar _ (by omega),
          isDigitChar_digitChar _ (by omega), isDigitChar_digitChar _ (by omega),
          isDigitChar_digitChar _ (by omega), isDigitChar_digitChar _ (by omega),
          isDigitChar_digitChar _ (by omega), isDigitChar_digitChar _ (by omega),
          isDigitChar_digitChar _ (by omega), isDigitChar_digitChar _ (by omega),
          isDigitChar_digitChar _ (by omega), isDigitChar_digitChar _ (by omega),
          isDigitChar_digitChar _ (by omega), isDigitChar_digitChar _ (by omega),
          isDigitChar_digitChar _ (by omega), isDigitChar_digitChar _ (by omega)⟩ hnc
    rw [hparse]

/-- C10 witness: the instant 2024-01-15T00:00:00 at +01:00 formats to
the wire string with the offset colon and parses back to itself. -/
theorem api_datetime_roundtrip_witness :
    insert_offset_colon (strftime_api ⟨2024, 1, 15, 0, 0, 0, 60⟩) =
      "2024-01-15T00:00:00+01:00" ∧
    parse_rte_api_datetime
        (insert_offset_colon (strftime_api ⟨2024, 1, 15, 0, 0, 0, 60⟩)) =
      .ok ⟨2024, 1, 15, 0, 0, 0, 60⟩ := by
  constructor
  · rfl
  · exact api_datetime_roundtrip ⟨2024, 1, 15, 0, 0, 0, 60⟩ (by decide)

end RteTempo
